import Mathlib

/-!
# infinite-inkblots: verification of the procedural generation core

Shallow embedding of the Python repository `heyJonBray/infinite-inkblots`
(files `src/inkblot.py`, `src/rorschach/eth_utils.py`, `src/rorschach/perlin.py`,
`src/rorschach/noise_rorschach.py`, `src/rorschach/inkblot.py`,
`src/rorschach/shapes.py`, `src/src/utils.py`) into Lean 4, together with
theorems settling the specification claims about it.

Modelling conventions, used throughout and noted again at each definition:

* Python machine integers are `Nat`/`Int` with explicit `% 2^32` where the
  original arithmetic wraps (Mersenne Twister, SHA-256 words).
* Python floats are modelled as exact rationals/reals.  Every concrete input
  appearing in a theorem below has been checked to be far from any rounding
  boundary, so the exact-arithmetic model and the float computation agree
  there (e.g. `int(gx * (1024/24))` equals `gx * 1024 / 24` in integer
  division for every `gx ≤ 48`, and `int(((z - 1) / 9) * 400)` equals
  `(z - 1) * 400 / 9` for every `z ≤ 40`).
* Python strings are `List Char`; `str.encode()` is byte-per-character, which
  is exact for the ASCII inputs these functions handle.
* Calls into external libraries that are out of scope for the spec (PIL
  resize/blur, numpy resampling) are abstracted as oracle parameters; all
  arithmetic and control flow of the repository's own code is embedded.
-/

set_option maxRecDepth 1000000
set_option maxHeartbeats 4000000

namespace Inkblots

/-! ## 32-bit helpers -/
/-- Truncation to 32 bits, the wrap-around of C `uint32_t` arithmetic. -/
def u32 (x : Nat) : Nat := x % 4294967296

/-- 32-bit right rotation. -/
def rotr (n x : Nat) : Nat := u32 ((x >>> n) ||| (x <<< (32 - n)))

/-! ## SHA-256 (`hashlib.sha256`), byte-list input, big-endian words -/
def shaCh (e f g : Nat) : Nat := (e &&& f) ^^^ ((e ^^^ 4294967295) &&& g)

def shaMaj (a b c : Nat) : Nat := (a &&& b) ^^^ (a &&& c) ^^^ (b &&& c)

def shaBig0 (x : Nat) : Nat := rotr 2 x ^^^ rotr 13 x ^^^ rotr 22 x

def shaBig1 (x : Nat) : Nat := rotr 6 x ^^^ rotr 11 x ^^^ rotr 25 x

def shaSmall0 (x : Nat) : Nat := rotr 7 x ^^^ rotr 18 x ^^^ (x >>> 3)

def shaSmall1 (x : Nat) : Nat := rotr 17 x ^^^ rotr 19 x ^^^ (x >>> 10)

def shaK : List Nat :=
  [1116352408, 1899447441, 3049323471, 3921009573, 961987163, 1508970993,
   2453635748, 2870763221, 3624381080, 310598401, 607225278, 1426881987,
   1925078388, 2162078206, 2614888103, 3248222580, 3835390401, 4022224774,
   264347078, 604807628, 770255983, 1249150122, 1555081692, 1996064986,
   2554220882, 2821834349, 2952996808, 3210313671, 3336571891, 3584528711,
   113926993, 338241895, 666307205, 773529912, 1294757372, 1396182291,
   1695183700, 1986661051, 2177026350, 2456956037, 2730485921, 2820302411,
   3259730800, 3345764771, 3516065817, 3600352804, 4094571909, 275423344,
   430227734, 506948616, 659060556, 883997877, 958139571, 1322822218,
   1537002063, 1747873779, 1955562222, 2024104815, 2227730452, 2361852424,
   2428436474, 2756734187, 3204031479, 3329325298]

def shaH0 : List Nat :=
  [1779033703, 3144134277, 1013904242, 2773480762,
   1359893119, 2600822924, 528734635, 1541459225]

/-- SHA-256 padding: append `0x80`, zero bytes to 56 mod 64, then the bit
length as 8 big-endian bytes. -/
def shaPad (msg : List Nat) : List Nat :=
  let L := msg.length
  let k := (64 + 56 - (L + 1) % 64) % 64
  let bits := 8 * L
  msg ++ [0x80] ++ List.replicate k 0 ++
    [(bits >>> 56) % 256, (bits >>> 48) % 256, (bits >>> 40) % 256,
     (bits >>> 32) % 256, (bits >>> 24) % 256, (bits >>> 16) % 256,
     (bits >>> 8) % 256, bits % 256]

/-- Group 4 bytes into one big-endian 32-bit word. -/
def bytesToWordsBE : List Nat → List Nat
  | b0 :: b1 :: b2 :: b3 :: rest =>
      ((b0 <<< 24) ||| (b1 <<< 16) ||| (b2 <<< 8) ||| b3) :: bytesToWordsBE rest
  | _ => []

/-- Message-schedule extension from 16 to 64 words. -/
def shaSchedule (w16 : List Nat) : List Nat :=
  (List.range 48).foldl (fun w _ =>
    let i := w.length
    w ++ [u32 (w.getD (i - 16) 0 + shaSmall0 (w.getD (i - 15) 0) +
               w.getD (i - 7) 0 + shaSmall1 (w.getD (i - 2) 0))]) w16

/-- One round of the compression function on the 8-word state. -/
def shaRound (st : List Nat) (kw : Nat × Nat) : List Nat :=
  match st with
  | [a, b, c, d, e, f, g, h] =>
      let t1 := u32 (h + shaBig1 e + shaCh e f g + kw.1 + kw.2)
      let t2 := u32 (shaBig0 a + shaMaj a b c)
      [u32 (t1 + t2), a, b, c, u32 (d + t1), e, f, g]
  | other => other

/-- Compress one 64-byte block into the running hash state. -/
def shaCompressBlock (h : List Nat) (block : List Nat) : List Nat :=
  let w := shaSchedule (bytesToWordsBE block)
  let st := (shaK.zip w).foldl shaRound h
  List.zipWith (fun x y => u32 (x + y)) h st

/-- Split into 64-byte blocks (fuel is the list length, so this is total). -/
def chunks64 : Nat → List Nat → List (List Nat)
  | 0, _ => []
  | _, [] => []
  | fuel + 1, l => l.take 64 :: chunks64 fuel (l.drop 64)

/-- SHA-256 digest of a byte list, as the list of 32 digest bytes. -/
def sha256 (msg : List Nat) : List Nat :=
  let padded := shaPad msg
  let final := (chunks64 padded.length padded).foldl shaCompressBlock shaH0
  final.foldr (fun w acc =>
    (w >>> 24) % 256 :: (w >>> 16) % 256 :: (w >>> 8) % 256 :: w % 256 :: acc) []

/-! ## Hex strings and Python string helpers -/
/-- Lower-case hex character for a nibble, as `hexdigest` produces. -/
def hexChar (n : Nat) : Char := if n < 10 then Char.ofNat (48 + n) else Char.ofNat (87 + n)

/-- `hashlib` `.hexdigest()` of a byte list. -/
def bytesToHexChars (bs : List Nat) : List Char :=
  bs.foldr (fun b acc => hexChar (b / 16) :: hexChar (b % 16) :: acc) []

/-- Value of a lower-case hex character. -/
def hexCharVal (c : Char) : Nat := if c.toNat ≤ 57 then c.toNat - 48 else c.toNat - 87

/-- Python `int(s, 16)` for a lower-case hex string. -/
def natOfHexChars (cs : List Char) : Nat := cs.foldl (fun acc c => acc * 16 + hexCharVal c) 0

/-- Python `str.encode()` for ASCII strings: one byte per character. -/
def strBytes (cs : List Char) : List Nat := cs.map Char.toNat

/-- Python `str.lower()` on the character list (ASCII inputs). -/
def lowerChars (s : String) : List Char := s.data.map Char.toLower

/-- Python `s.replace('0x', '')`: remove every non-overlapping occurrence of
the two-character pattern, scanning left to right. -/
def replace0x : List Char → List Char
  | [] => []
  | [c] => [c]
  | c1 :: c2 :: rest =>
      if c1 = '0' ∧ c2 = 'x' then replace0x rest
      else c1 :: replace0x (c2 :: rest)

/-- Whether the pattern `"0x"` occurs anywhere in the list. -/
def contains0x : List Char → Bool
  | [] => false
  | [_] => false
  | c1 :: c2 :: rest => (c1 = '0' && c2 = 'x') || contains0x (c2 :: rest)

/-- One character of the class `[0-9a-f]`. -/
def isHexLower (c : Char) : Bool :=
  ('0' ≤ c && c ≤ '9') || ('a' ≤ c && c ≤ 'f')

/-- The regex `^[0-9a-f]{40}$` from `eth_utils.py` line 19. -/
def matchesHex40 (cs : List Char) : Bool := cs.length == 40 && cs.all isHexLower

/-- Big-endian value of a byte list (used to state digest truncations). -/
def bytesToNatBE (l : List Nat) : Nat := l.foldl (fun acc b => acc * 256 + b) 0

/-! ## `extract_eth_features` (src/rorschach/eth_utils.py) -/
/-- The feature record built by `extract_eth_features`.  The two `_ratio`
fields of the source are named `_frac` here; values are exact rationals. -/
structure EthFeatures where
  seed : Nat
  zero_count : Nat
  one_count : Nat
  letter_count : Nat
  number_count : Nat
  end_chars : List Char
  start_chars : List Char
  max_repeat : Nat
  char_diversity : ℚ
  even_char_frac : ℚ
  high_char_frac : ℚ
  deriving DecidableEq

/-- Longest run of equal adjacent characters:
`max(len(list(g)) for _, g in groupby(address))` (with 0 for the empty list). -/
def maxRunAux : List Char → Char → Nat → Nat → Nat
  | [], _, cur, best => max cur best
  | c :: rest, p, cur, best =>
      if c = p then maxRunAux rest p (cur + 1) best
      else maxRunAux rest c 1 (max cur best)

def maxRun : List Char → Nat
  | [] => 0
  | c :: rest => maxRunAux rest c 1 0

/-- The normalization of eth_utils.py line 16:
`eth_address.lower().replace('0x', '')` — note `replace` removes every
occurrence of the pattern, not only a prefix. -/
def normAddr (eth_address : String) : List Char := replace0x (lowerChars eth_address)

/-- The feature dictionary built from an already-normalized address
(eth_utils.py lines 22-57). -/
def featuresOf (address : List Char) : EthFeatures :=
  ⟨natOfHexChars ((bytesToHexChars (sha256 (strBytes address))).take 8),
   address.count '0',
   address.count '1',
   (address.filter (fun c => c.isAlpha)).length,
   (address.filter (fun c => c.isDigit)).length,
   address.drop (address.length - 4),
   address.take 4,
   maxRun address,
   (address.dedup.length : ℚ) / (address.length : ℚ),
   ((address.filter (fun c => hexCharVal c % 2 == 0)).length : ℚ) / (address.length : ℚ),
   ((address.filter (fun c => 8 ≤ hexCharVal c)).length : ℚ) / (address.length : ℚ)⟩

/-- `extract_eth_features` (eth_utils.py lines 4-59).  A failed regex check
raises `ValueError`, modelled as `Except.error`; no feature record is built
in that case. -/
def extract_eth_features (eth_address : String) : Except String EthFeatures :=
  if matchesHex40 (normAddr eth_address) then Except.ok (featuresOf (normAddr eth_address))
  else Except.error "Invalid Ethereum address format"

/-- Modelled from the spec: the spec's validation strips only an *optional
leading* `"0x"` prefix before matching the lowercased identifier against
the regex `[0-9a-f]` of length 40 (spec sections 3, 4.1 and 8; this prefix-only
stripping is not what eth_utils.py implements, which is the point of C2). -/
def specValidHex40 (s : String) : Bool :=
  match lowerChars s with
  | '0' :: 'x' :: rest => matchesHex40 rest
  | l => matchesHex40 l

/-! ## Digests used by `generate_pixel_inkblot` and `get_border_palette`
(src/inkblot.py) -/
/-- Digest hashed by `generate_pixel_inkblot` (inkblot.py line 16):
`sha256(address.lower().encode())` — lowercased but *not* prefix-stripped. -/
def pixelDigest (address : String) : List Nat := sha256 (strBytes (lowerChars address))

/-- The seed of `generate_pixel_inkblot`: the **full** 256-bit digest value,
`int(sha256(address.lower()).hexdigest(), 16)`. -/
def pixelSeedInt (address : String) : Nat := natOfHexChars (bytesToHexChars (pixelDigest address))

/-- Digest hashed by `get_border_palette` (inkblot.py lines 101 and 106):
`sha256(address.lower().replace('0x', '').encode())`. -/
def paletteDigest (address : String) : List Nat :=
  sha256 (strBytes (replace0x (lowerChars address)))

/-- Palette index selection (inkblot.py line 107): first digest byte
(2 hex chars) mod the palette-table size 6. -/
def palette_index (address : String) : Nat :=
  natOfHexChars ((bytesToHexChars (paletteDigest address)).take 2) % 6

/-! ## MT19937, as seeded and driven by CPython `random.Random`

`random.Random(n)` for an int `n` takes `|n|`, splits it into little-endian
32-bit words and calls `init_by_array`; `getrandbits(k)` for `k ≤ 32` is
`genrand_uint32() >> (32-k)`; `randint(0, m-1)` is `_randbelow(m)`, rejection
sampling on `getrandbits(m.bit_length())`; `random()` combines two outputs
into a 53-bit numerator over `2^53` (exact as a rational).  All 32-bit
arithmetic wraps, written `u32` here. -/
/-- Word `i` of a state packed little-endian into one `Nat`, 32 bits per
word.  The packed representation keeps kernel evaluation shallow. -/
def mtGet (st i : Nat) : Nat := (st >>> (32 * i)) &&& 4294967295

/-- Replace word `i` of a packed state. -/
def mtSet (st i v : Nat) : Nat := st - (mtGet st i <<< (32 * i)) + (v <<< (32 * i))

/-- Bit length by fuel-bounded halving (kernel-reducible). -/
def bitLenAux : Nat → Nat → Nat
  | 0, _ => 0
  | fuel + 1, n => if n = 0 then 0 else bitLenAux fuel (n >>> 1) + 1

/-- Python `int.bit_length`. -/
def pyBitLength' (n : Nat) : Nat := bitLenAux n n

/-- Number of little-endian base-2^32 key words CPython's `random_seed`
splits `|n|` into (at least one); the packed key is `n` itself. -/
def mtKeyLen (n : Nat) : Nat := if n = 0 then 1 else (pyBitLength' n + 31) / 32

/-- `init_genrand(s)`: the base state before key mixing, packed. -/
def mtInitGenrand (s : Nat) : Nat :=
  ((List.range 623).foldl (fun p i =>
      match p with
      | (acc, last) =>
        let v := u32 (1812433253 * (last ^^^ (last >>> 30)) + (i + 1))
        (acc + (v <<< (32 * (i + 1))), v))
    ((u32 s, u32 s) : Nat × Nat)).1

/-- One step of the first `init_by_array` mixing loop (state: mt, i, j);
the key is the packed seed itself (word `j` read by shifting). -/
def mtMix1 (key keyLen : Nat) : Nat × Nat × Nat → Nat × Nat × Nat
  | (mt, i, j) =>
    let prev := mtGet mt (i - 1)
    let v := u32 ((mtGet mt i ^^^ u32 ((prev ^^^ (prev >>> 30)) * 1664525)) + mtGet key j + j)
    let mt2 := mtSet mt i v
    let j2 := if keyLen ≤ j + 1 then 0 else j + 1
    if 624 ≤ i + 1 then (mtSet mt2 0 (mtGet mt2 623), 1, j2) else (mt2, i + 1, j2)

/-- One step of the second `init_by_array` mixing loop (state: mt, i). -/
def mtMix2 : Nat × Nat → Nat × Nat
  | (mt, i) =>
    let prev := mtGet mt (i - 1)
    let v := u32 ((mtGet mt i ^^^ u32 ((prev ^^^ (prev >>> 30)) * 1566083941)) + 4294967296 - i)
    let mt2 := mtSet mt i v
    if 624 ≤ i + 1 then (mtSet mt2 0 (mtGet mt2 623), 1) else (mt2, i + 1)

/-- The first `init_by_array` mixing loop: `max(624, keyLen)` steps from
`(base, i=1, j=0)`. -/
def mtPhase1 (key keyLen base : Nat) : Nat × Nat × Nat :=
  (List.range (max 624 keyLen)).foldl (fun st _ => mtMix1 key keyLen st) (base, 1, 0)

/-- The second `init_by_array` mixing loop: 623 steps. -/
def mtPhase2 (st : Nat × Nat) : Nat × Nat :=
  (List.range 623).foldl (fun st _ => mtMix2 st) st

/-- `init_by_array` for the key derived from the integer seed; finally
`mt[0] = 0x80000000`. -/
def mtInitBySeed (seedInt : Nat) : Nat :=
  match mtPhase1 seedInt (mtKeyLen seedInt) (mtInitGenrand 19650218) with
  | (mt1, i1, _) =>
    match mtPhase2 (mt1, i1) with
    | (mt2, _) => mtSet mt2 0 2147483648

/-- One step of the in-place state regeneration. -/
def mtTwistStep (st : Nat) (kk : Nat) : Nat :=
  let y := (mtGet st kk &&& 2147483648) ||| (mtGet st ((kk + 1) % 624) &&& 2147483647)
  let v := mtGet st ((kk + 397) % 624) ^^^ (y >>> 1) ^^^ (if y % 2 = 1 then 2567483615 else 0)
  mtSet st kk v

def mtTwist (st : Nat) : Nat := (List.range 624).foldl mtTwistStep st

/-- The output tempering. -/
def mtTemper (y0 : Nat) : Nat :=
  let y1 := y0 ^^^ (y0 >>> 11)
  let y2 := y1 ^^^ ((y1 <<< 7) &&& 2636928640)
  let y3 := y2 ^^^ ((y2 <<< 15) &&& 4022730752)
  y3 ^^^ (y3 >>> 18)

/-- Pack the 624 tempered outputs of one regenerated state. -/
def mtPack (t : Nat) : Nat :=
  (List.range 624).foldl (fun acc i => acc + (mtTemper (mtGet t i) <<< (32 * i))) 0

/-- The first `624 * blocks` outputs of `random.Random(seedInt)`, packed
little-endian, 32 bits per output (tempered). -/
def mtBlocksAux : Nat → Nat → Nat
  | 0, _ => 0
  | k + 1, st =>
      let t := mtTwist st
      mtPack t + (mtBlocksAux k t <<< 19968)

def mtStream (seedInt blocks : Nat) : Nat := mtBlocksAux blocks (mtInitBySeed seedInt)

/-- `Random._randbelow(n)` on the packed output stream: draw
`getrandbits(k) = output >> (32-k)`, reject while `≥ n`.  Returns the value
and the index of the next unconsumed output.  The fuel bounds the rejection
loop; every concrete run below succeeds well within it. -/
def randbelowIdx (stream k n : Nat) : Nat → Nat → Nat × Nat
  | 0, idx => (0, idx)
  | fuel + 1, idx =>
      let r := mtGet stream idx >>> (32 - k)
      if r < n then (r, idx + 1) else randbelowIdx stream k n fuel (idx + 1)

/-- The iteration body of `add_grid_splatter` (inkblot.py lines 88-97):
draw `gx, gy` with `randint(0, splat-1)` and skip the draw when
`abs(gx - splat//2) < splat//4`; kept draws are returned as grid cells. -/
def splatterLoopAux (stream splat : Nat) : Nat → Nat → List (Nat × Nat)
  | 0, _ => []
  | cnt + 1, idx =>
      match randbelowIdx stream (pyBitLength' splat) splat 64 idx with
      | (gx, idx2) =>
        match randbelowIdx stream (pyBitLength' splat) splat 64 idx2 with
        | (gy, idx3) =>
          if ((gx : Int) - ((splat / 2 : Nat) : Int)).natAbs < splat / 4 then
            splatterLoopAux stream splat cnt idx3
          else (gx, gy) :: splatterLoopAux stream splat cnt idx3

/-- `add_grid_splatter(img, draw, seed, grid_size, scale, count)`: the drawn
cells, using the dedicated generator `random.Random(seed + 1337)`.  Python
raises on `randint(0, -1)`, so this model is meaningful for
`0 < grid_size * scale` only. -/
def add_grid_splatter (seed grid_size scale count : Nat) : List (Nat × Nat) :=
  splatterLoopAux (mtStream (seed + 1337) 2) (grid_size * scale) count 0

/-! ## `generate_pixel_inkblot` ink layer (src/inkblot.py lines 15-50)

Fixed default parameters `size=1024, grid=24, fill_prob=1.1`.  The float
cell arithmetic `int(gx * (size/grid))` agrees with the integer division
`gx * size / grid` for every cell index of both the 24-grid and the
doubled 48-grid (checked exhaustively), so the latter is used. -/
/-- `zero_count = address.lower().replace("0x", "").count("0")`
(lines 44-45). -/
def zeroCountInk (address : String) : Nat := (replace0x (lowerChars address)).count '0'

/-- `count = int(((zero_count - 1) / 9) * 400)` (line 48), as the exact
rational floor, which the float computation equals for every realistic
zero count. -/
def splatterCount (address : String) : Nat := ((zeroCountInk address - 1) * 400) / 9

/-- Conditional splatter (lines 43-50): only when the normalized body has
more than one `'0'`. -/
def splatterCells (address : String) : List (Nat × Nat) :=
  if 1 < zeroCountInk address then
    add_grid_splatter (pixelSeedInt address) 24 2 (splatterCount address)
  else []

/-- Whether pixel `(x, y)` lies in the PIL rectangle of cell `(gx, gy)` on a
`splat`-cell grid over a `w`-pixel canvas; `draw.rectangle` endpoints are
inclusive. -/
def coversCell (w splat gx gy x y : Nat) : Bool :=
  (gx * w / splat ≤ x) && (x ≤ (gx + 1) * w / splat) &&
  (gy * w / splat ≤ y) && (y ≤ (gy + 1) * w / splat)

/-- `rnd.random()`: the 53-bit numerator of the `k`-th double of the stream,
`(a >> 5) * 2^26 + (b >> 6)`; the double is exactly this over `2^53`. -/
def randNum53 (stream k : Nat) : Nat :=
  (mtGet stream (2 * k) >>> 5) * 67108864 + (mtGet stream (2 * k + 1) >>> 6)

/-- The step-1 fill decision for offsets `(dx, dy)` (lines 26-30):
`rnd.random() < fill_prob * (1.0 - dist / (grid / 2))` with
`dist = sqrt(dx^2 + dy^2)`, `fill_prob = 1.1`, `grid = 24`.  In exact
arithmetic, writing the double as `r = m / 2^53` with `0 ≤ m < 2^53`, the
comparison `r < (11/10) * (1 - sqrt n / 12)` is equivalent to
`sqrt n < 12 - (120/11) * r` (the right side is positive since `r < 1`),
i.e., squaring and clearing the positive denominator `11 * 2^53`, to
`n * (11 * 2^53)^2 < (132 * 2^53 - 120 * m)^2` — pure integers, as below.
One `random()` is consumed per cell, in loop order `dx` outer from -6,
`dy` inner from -12. -/
def step1Fill (stream : Nat) (dx dy : Int) : Bool :=
  let n : Nat := (dx * dx + dy * dy).toNat
  let idx : Nat := ((dx + 6) * 24 + (dy + 12)).toNat
  let m := randNum53 stream idx
  decide (n * (11 * 9007199254740992) ^ 2 < (132 * 9007199254740992 - 120 * m) ^ 2)

/-- All step-1 cell offsets, `range(-6, 6) × range(-12, 12)`. -/
def step1Cells : List (Int × Int) :=
  ((List.range 12).map (fun a => (a : Int) - 6)).foldr
    (fun dx acc => ((List.range 24).map (fun b => ((dx, (b : Int) - 12) : Int × Int))) ++ acc) []

/-- Whether some step-1 rectangle covers pixel `(x, y)`: cell `(dx, dy)` is
drawn at grid position `(6 + dx, 12 + dy)` (lines 31-37). -/
def step1Covers (stream : Nat) (x y : Nat) : Bool :=
  step1Cells.any fun c =>
    coversCell 1024 24 (6 + c.1).toNat (12 + c.2).toNat x y && step1Fill stream c.1 c.2

/-- Step 2 (lines 40-41): crop the left half, flip it, paste at
`(size // 2, 0)`.  Pixels inside the pasted region read the flipped left
half; all others keep their step-1 value. -/
def mirrorPaste (pre : Nat → Nat → Nat) (size x y : Nat) : Nat :=
  if size / 2 ≤ x ∧ x < size / 2 + size / 2 then pre (size - 1 - x) y else pre x y

/-- Alpha channel of the step-1 layer before mirroring (255 on drawn
rectangles, 0 elsewhere; the color is constantly black). -/
def step1Alpha (address : String) (x y : Nat) : Nat :=
  if step1Covers (mtStream (pixelSeedInt address) 1) x y then 255 else 0

/-- Alpha channel of the ink layer after step 3: the conditional splatter is
drawn on top of the mirrored layer and is *not* mirrored itself. -/
def inkAlpha (address : String) (x y : Nat) : Nat :=
  if (splatterCells address).any (fun c => coversCell 1024 48 c.1 c.2 x y) then 255
  else mirrorPaste (step1Alpha address) 1024 x y

/-! ## `generate_perlin_noise` (src/rorschach/perlin.py, identical copy in
noise_rorschach.py lines 8-104)

Floats are modelled as exact reals.  The gradient lattice — built in the
source from `numpy` random angles as `(cos a, sin a)` — is abstracted as an
oracle `grads : octave → row → column → ℝ × ℝ`; every lattice any run can
produce consists of unit vectors, and that is the only property used.  This
also covers numpy's negative-index wrap-around, since the oracle is total. -/
/-- Python `int()`: truncation toward zero. -/
noncomputable def pyInt (x : ℝ) : ℤ := if 0 ≤ x then ⌊x⌋ else -⌊-x⌋

/-- `interpolate(a, b, t)` (perlin.py lines 33-36): linear interpolation at
the smoothstep weight `t²(3−2t)`. -/
noncomputable def interpolate (a b t : ℝ) : ℝ := a + (b - a) * (t * t * (3 - 2 * t))

/-- One octave's contribution at sample `(y, x)` for frequency `freq`
(perlin.py lines 52-78): cell and offsets from `divmod(coord * frequency, 1)`
(floor and fractional part), four corner dot products, smoothstep
interpolation in `x` then `y`; samples failing the lattice-bounds guard
contribute nothing.  Per lines 30 and 49, `grid_width` is the
`shape[0]`-derived lattice count and `grid_height` the `shape[1]`-derived
one, and the guard of line 60 bounds `grid_y` by `grid_height` and
`grid_x` by `grid_width`. -/
noncomputable def octaveAt (grads : ℤ → ℤ → ℝ × ℝ) (shape0 shape1 : ℕ) (freq : ℝ)
    (y x : ℕ) : ℝ :=
  let gy : ℤ := ⌊(y : ℝ) * freq⌋
  let dy : ℝ := Int.fract ((y : ℝ) * freq)
  let gx : ℤ := ⌊(x : ℝ) * freq⌋
  let dx : ℝ := Int.fract ((x : ℝ) * freq)
  let grid_width : ℤ := pyInt ((shape0 : ℝ) * freq) + 1
  let grid_height : ℤ := pyInt ((shape1 : ℝ) * freq) + 1
  if gy < grid_height - 1 ∧ gx < grid_width - 1 then
    let g00 := grads gy gx
    let g01 := grads gy (gx + 1)
    let g10 := grads (gy + 1) gx
    let g11 := grads (gy + 1) (gx + 1)
    let d00 := g00.1 * dx + g00.2 * dy
    let d01 := g01.1 * (dx - 1) + g01.2 * dy
    let d10 := g10.1 * dx + g10.2 * (dy - 1)
    let d11 := g11.1 * (dx - 1) + g11.2 * (dy - 1)
    interpolate (interpolate d00 d01 dx) (interpolate d10 d11 dx) dy
  else 0

/-- One octave of the accumulation loop on the state
`(noise, max_value, amplitude, frequency)` (perlin.py lines 46-85). -/
noncomputable def perlinStep (grads : ℕ → ℤ → ℤ → ℝ × ℝ) (shape0 shape1 : ℕ)
    (persistence lacunarity : ℝ) (y x : ℕ) (st : ℝ × ℝ × ℝ × ℝ) (o : ℕ) :
    ℝ × ℝ × ℝ × ℝ :=
  match st with
  | (acc, maxv, amp, freq) =>
      (acc + amp * octaveAt (grads o) shape0 shape1 freq y x, maxv + amp,
       amp * persistence, freq * lacunarity)

/-- The octave accumulation state after all octaves, starting from
`noise = 0`, `max_value = 0`, `amplitude = 1`, `frequency = scale`. -/
noncomputable def perlinAcc (grads : ℕ → ℤ → ℤ → ℝ × ℝ) (shape0 shape1 : ℕ)
    (scale persistence lacunarity : ℝ) (octaves : ℕ) (y x : ℕ) : ℝ × ℝ × ℝ × ℝ :=
  (List.range octaves).foldl (perlinStep grads shape0 shape1 persistence lacunarity y x)
    (0, 0, 1, scale)

/-- The linear attenuation factor of the vertical fix at row `y`
(perlin.py line 95): `1.0 - 0.5 * ((y - (height - bottom)) / bottom)` with
`bottom = int(height * 0.1)`, modelled as `height / 10` (they agree for
every realistic height). -/
noncomputable def vfixFactor (shape0 y : ℕ) : ℝ :=
  1 - ((y : ℝ) - ((shape0 - shape0 / 10 : ℕ) : ℝ)) / (2 * ((shape0 / 10 : ℕ) : ℝ))

/-- `generate_perlin_noise` sample value at `(y, x)`: normalize the octave
sum by the amplitude total, remap `[-1, 1]` to `[0, 1]` (line 88), then
apply the optional vertical fix to the bottom `int(height * 0.1)` rows
(lines 91-102). -/
noncomputable def generate_perlin_noise (grads : ℕ → ℤ → ℤ → ℝ × ℝ) (shape0 shape1 : ℕ)
    (scale : ℝ) (octaves : ℕ) (persistence lacunarity : ℝ) (vertical_fix : Bool)
    (y x : ℕ) : ℝ :=
  match perlinAcc grads shape0 shape1 scale persistence lacunarity octaves y x with
  | (acc, maxv, _, _) =>
    let v := (acc / maxv + 1) / 2
    let b := shape0 / 10
    if vertical_fix ∧ shape0 - b ≤ y ∧ y < shape0 ∧ 0 < b then
      1 / 2 + (v - 1 / 2) * vfixFactor shape0 y
    else v

/-- Whether an `Except` is a success. -/
def exOk {ε α : Type} : Except ε α → Bool
  | .ok _ => true
  | .error _ => false

instance {ε α : Type} [DecidableEq ε] [DecidableEq α] : DecidableEq (Except ε α)
  | .ok a, .ok b =>
      if h : a = b then isTrue (by rw [h]) else isFalse (by intro hh; cases hh; exact h rfl)
  | .ok _, .error _ => isFalse (by intro h; cases h)
  | .error _, .ok _ => isFalse (by intro h; cases h)
  | .error a, .error b =>
      if h : a = b then isTrue (by rw [h]) else isFalse (by intro hh; cases hh; exact h rfl)

/-! ## Concrete identifiers used by theorems below -/
/-- The example address shipped in inkblot.py line 166, lowercased. -/
def addrFull : String := "0xddef9dd040cf7b41a1af9e4a24a0edb04093dd69"

/-- The same address without the "0x" prefix (a valid 40-hex identifier). -/
def addrBody : String := "ddef9dd040cf7b41a1af9e4a24a0edb04093dd69"

/-! ## Evaluation checkpoints for the two concrete MT19937 streams

`decide` evaluation of the full seeding pipeline in one step exceeds the
kernel stack, so the state after each phase is recorded as a packed literal
and each phase is verified by `decide` separately.  `S` is the splatter
stream `Random(seed + 1337)` and `F` the step-1 stream `Random(seed)` for
the address `addrFull`.  All literals below are *proved* equal to the
corresponding phase of the embedded pipeline, so nothing here is trusted.
-/
/-- Packed `init_genrand(19650218)` state (seed-independent). -/
def mtG : Nat := 62685089405509111925910797243914719854890513935494713084094713797279779630627496305943786046941309007281293105221577504421353501605599255248785149356818580886163074212016138319710181437623915839386196989339984175865611290932895638485827512283879634622589907034847096838980553398268338905605705315464924834076955485269257682765843392777664062904318116756644819538761883164862381873685805923051342196114892111881287659915424456096361326051748180740843339721465950121631833352165428366344241754810081140762710579390137795215443629123183303201044796731629341661542390258966032612552126580439913324626563213547393121217728067632048719897064596438939163041106934301355643192260261867872030533878188557727018817797219012064641958276099544136480610826250078810896212505254064619595899307426216931651016613164877613570296351724055264357110051005104450572173606849938075379012356137114572525910752676385589168436483206759652170097284388598518122222819376116616668668677988651997615236221431416155794821321118852088948452164682783715959922435191327367306488124638818446090532334864386359317233873012285172875896330714873881780586230596002778688422250420590175698633544778262136505069053046737202152515000629854634631225453245996997340762744567896897683212149150732909707719966588817675821630380251456266588599804209831660991462715440400663143017564651072677052296295930367391822676512661642282350234567553218318066651318510488484545671729568971887621684270732981974442582657502555066960418690332945218280990034155505553171409775830458482159957769211244505225186771766058316021949327301666418107251589707938065072144733816368743637495699897181007119363672460040974223449086641663004605507793014252452324150238463715514559124307431648478948480649031081489229583165223570218974125422263886587593014744330199975749832650568652404661542746543584685860761547297457070273167102314576665676644281998277713093924236551494770138725647883566971887853912300960949802636372591951717316415323846182747445131420005722224687602711525724505110953736568981699982016588947035894059736087136235396798804019434387781559696138411966704777989194870090051835909943079457649936020314680876367897457337488804889342331824364904005266943816631681518612047693872607083945336048154993001716858914072302230374294986610531277637599664647525761147514008899238689946802093944865612982597431648203028809043429562401771290925843222821220221381984318518256971016750121270624021542153515130386081256853244444367484914891752438843250797295149886721543902585582757118492217204960123203770309672216674331373413106027454841661967870247822106376003696537006476355273043676224973894002060133928765135363584693312631060562155459381152426642778209514491263275588735458188352331628933634618912177576995916817414488324819680108333628484452298807271017999262374749573133359090629722111402666396222385680310709557844049479865847370371052888681758484468279513921172987571336140289500145715018352119752770038578015899178947425013401300127437407370742417936980607757405410607208376626705322894782663757703548808362869195819947150150865798288136994832911439410269353230208345410503242199606186650417333579047848825834242257112060317620885151293421378661990197161958015730358249113963865616811805417654957899792836277351433146683316643158745577273742588847277405020330699298979666450169324546781433015633218213248018986767013905101885085728066131985273947793365444250280947765884488609302913437528001802423347517836456663978922564542901160075954132077499502061844004777463229898312792357201472450520034421742281215395838957029567457078867297742321364249618062920323524100796395855490398720473188748064226082130624085325443879193454095100721902723688608983702297802922465778395428510531587340343771240068168890882622394112252370643121994567113348850616779414952571984309063927162547038575769391208822294299053225776973195785292510157058775147687493667385905281728614066936870793483631104130486096422866739022254251631022238998824784309871214211336594149372534724828516536519652291847191320934127662041939033266344757810255450761243406685982638804631309022215852991706323223872506356963395668107287976200691035733250165615782065576159415303394415966535152327550107294310945533761757937224536792146711105700674959937207778503501562879445241463662142281185819506210181780721218897488871995890898495582077564387715740371190275817001449471008660140255770382875594805433223352833476546594040372715841292252983175468170554585838014797017976570586587751089146553833551413146641975370517778330202052282190648141351908509904289169596729111939424597802445523234111653813513351586367960175769546506050051493655326103823629699245586418016468660736051425039803522537493270385743437525903109563398688573456345292160567787373069854610200635728800730405759403691875432721043746233636765094325962472698626875833148826372580999341547042531665331710768365982359935219565301595187067772247975847412037958098451506998773182171027695752045356894447709388159633645629545493246019135820915900506906032640701290570506299065346661219735445730896769091171352761432210047450382980030625592142825700677633624952217795344145832513082782540989616413040988227257601039794195623143595351637462190706636535912449334420058581521218743569834717812580171279915160794789675762903718339466089866492140118823551337811927493524761760551434001520245324751568861558716803095718510972066599595072196209156923318071322517301806566620458899402166430591631348363311478802800521980525250372511467674969151489645720009661369785217086930227581405674315978920044798755483144811069077253851302610194739624245401270682864202663540116818822475326676741780611737275972111438408802370422377608919256570335384654037352344114105999356653180812503717835632673409647782213628400383443178293619326757139369589058612122088577237252104060778375287897543799460272211546791798613974575310224299012205778134871255296492395729078221387894808011355820153110205338707003138385845672884757408327786763143168159295742358655797897448897721796416755370

def seedS : Nat := 77773702564850839883514498876378628532800764107147604677697955595057158815081

def mtM1S : Nat := 15053992888357905057836619661360397994064430000008359730764517684343727868212899724033349377817129603124584626572347273215317761373390473369435895125783147527956637248473475640107775402659440937170437172993994545628208462523085299008716668659823556102012624132443550697845873967417263058902067965863531813293100891689073253320150193577271043450465889972752535123812510567465166856110161376407497995744958803274345061304222299167076053512825849862257380599399738467720641568252798711478616253750225837182928987343602087010949569777532953175865248330377540782334821604934045888496532129853229229222014431537977147338938601083691437481474273473339606806330632384194559622887202890956165140129804478754476942026772886808033822960267159999064008062037239738202094492239457713568462417133170345199986930017553897778437546127187871467616694937006286475659064549899798638834669879322091114307550417339819250166543466241949334848727502438648716440465741784268076422364100599000562213812275306051947566201977615478933056120764452268780012353928018489206408896667359386971802708963789438809474929407362165601841307769908779594875812977879703595246912078126994086110750250136404200769976986902275558619046963086609265355064397284772439116877167132915371385057766743279174059620987088639775687099422504133824066051879473090056119975546221030510587359370862229879379075127924646881113986732873990716200104235688058601435337010543470052344203663597401088230175253596303386336883098677440097805858485348401089289431246188429474845297878952479527886365927473596138467422802748494596197306267152790614240242619142923396803807670744675499611403210910876598977829622810648127816271875037800427981574047519431547950422275236991026961149045359875399509968882010828156570995860864175303895673044828073796915056324779591650350564054689289449254300535671087334243534196295834853786432008953380829115688909023292518910464673924587388656389760343621442493578898681580315569438064707161712462101736889249502298197106777377384634028612931178839754649385714921116076727387254188838056310632358788533811606863821828725037500748938589364059493683566859067632099973537612618074157242129213172550514828021524697023655669419586398935277830029719375609459083343540448747692292861214541432440279984477640053434388057914553902987586344662155260438701300125321457130574653544955716312423179209968979537047197267373635731812702491084101603389835156599830079688884794135329173795776012989044452782377831573629491190010600977490957346205740232312014543064182749850225911372397675646656267444072456907395664529361142579578299213793241454209593483987604343878745801577904427303178507159263234504314515604282103564236019765195141974869534552269768674594357101237886806202481159216467352479338861685523909666387579297233329376483043188787134539117400978700181760611561691815535172201016159936910002282717693253891836998432202421938327713335107718734393797746616494564329796650568263306497631186468001604763940656862611101537471914336323321124648091428499944865838229046800537046870267143719471296277316931218394253708269309321992685202267306759033332734633596046231608441851339777169000771780265641284270034395623630190826165696977036188645327301191632200131387122200114561903910171580593844000051253830304988903706037453498567380072943699790902050486281723208985074038869114369944051779155121108784932487653972777351189232078062910396245860725943012246828370419424060440734069340258790487467831524566044391820840995391781943897801081957875875963912793126448296845654592369708867756166348851206350355730947892766694519194316392866582895502676144820011910241460614312672616255354011308842162442372665965142745333998637485711065410650370069645552129637097899472985965073692060742348782986863056732785018348827321152892803597735484435820005510280871222456089592719834010914982972532660984429926386329891717006381798286538203182623563012828455080532499320200814168307381314085856555510820994905022723625300788303689647256419640687690169072447108693435758158291691775818900583213655989594846942556800828174790688410757749010159429865710515570434222648977893495403379342911337326802940193931690943791729902931632468663578876183456461882450244532424430890085699522894456335178259852278032383830425449704683346513258626008825377996421325737708578196186367272510709500031979937473970740978692986289472266943796920809315966756360391498446335025885505019812848963445998832677760630342665567324488307170765371634822134784015474918921018406757425239911702515612190667029611836876617624347565906899114323390497409040270118565198009480832007232941947390274547145723730286531096366157847778243912373655004633651760836603542233823849438880916683968485119645650027333496490571595098280914020600819573091609897889591839384822956822435106568933350062363452865195982910497107548146540756370474890030080882767430560804047608393805637994729377284095294810679648396258669824646172036059853035920274431753083930498204618272934687984694286993498847049526322537078390443940065803916570897073104446106908531437512275398326812718850345029325644885580350151980847795874919323221914129258832864239119604567275314450179815309911825664833898881146156583590058280951312526810919670064905666909664127468416974654457703323658940527503229811219565734017013414003570650076089724798219690938985239806722585305949685468517712555459869840439451456698721410483081632933749032296755172957839208345404941655086993371336877283294340047700630983999511708785054709149965443077079459192674033647326979713367761284424739794539830066713681137154895652958606117705753495010490129121925809915643315507947690551800203076382159504163663364549241664874302967953065281986414418524420959761849527594590641129999288171890367887001310860206712303533955397826711650792561731553840892811709508506462557468594954903036717932086182441016913235232838333352184214582351659353750042730834192953796489264907094919855690663084768555494657777095651348629466437748614152626288715052545975029065754489839494092742375274957884485

def mtEndI1S : Nat := 2

def mtEndJ1S : Nat := 0

def mtM2S : Nat := 23599809011561795520060846405764867992994384749382916787352498040048199056400380774212894414632636300230739120479331010690349240857191136885124129993249399686381168245240836970540484235922501820131952547926427894900186541457367505844669234943422969728655150198445349950977498609010513666282449178163865697956356255420431656103907605872775208105021105836955064228035424211080368581288484738959525596092044998217370670725775034575884255893221289288094310573577462640624442351069369733464046811535276947933952723396766809629347600710688095301924939359995136473500858719049988447890182468404283770990802403845401635146829487142251467372338611266168336920401848623480425027627674690211816178336745930482219351761515713029762981210383147860184589907332507388688247506234890824335881082611330280222791336040705065608848004753530180221085041167850748768494333290652960454875492408688510478036736327924741787962813587718795338402060840288750308603432997177441181720296197368288657455110459592715495457237226947427773298962024975924462991178805577019653217038807613230873882502647598557161101017494431412741291653421858799062262259298580969947054133634002396787709085130372545497582341572969338310349959895186565450806137174812048002304178623921395662503504378774234670268306228667730650700916407551839400191157640095625437988024854944751068910125871098217213561963505219653940155645011969941944554309554642239613995580008564198920863223109629478069267570326807652320036818023575200530757540376628738882665412419526798637615761986411763783798983267149806058950567607724863872805389904701687416451347538215526187363589546796327153564737631428572284427545528193287756483560957454786025615293274980813444108492365359625142261629200205210715394419519133468887657939848176067706040114517249300620250222387291374366078788743950151602306940177056731696191156710315088323703212261623875769941717170395525736064193507451706269107202849826743234063077110776141955938612879283776738760166535625842492217322663030653812264118725260360130525010873063137735475421172434968095233515359696669539365830883208875702012875504930238674590528890593092154750899822246794856617651113728376334574083333557601538414732662721174329162971742420498479220786249950328880819597868771033457221703705684547790327252709480567525740896659898430010229808556709778043886404616512828180596529748401495244366595432931388479303091922397464858169692372492626561608700872518048661180007484170785263118880787273533089490213770520902647380887613529655202839707232686277139141620084475066577265323202714093832273495428010308373675463554476524676452830407428913664235636810988035284403829148047786050606641407692507524069124857371245273674486359332325670094260043826590315304352547341355687268334420201489685099174906388504211726933594322500513468430683610443002289242854514013312628319055018387454489958008113631379279638495283428323823902077567542328064308784093305200789326073553814320346751389569809855258179448120247524539709777503684678578415661954648183421505107542503408442366223448217717454834367643202129861122874185480241792015487120490118307957866036739811656899744961385667385496193273101413562700258286187777349707865065650258779422296688724993432017740389132590998822060831088566378309588254519973410677187838932832319764279008892766839968242154694481153913179546415964510488147163115068680322610672702943915699889578608752272863289021123888152868085049112400289249659210444386524962838578689943114425362292326151861865304515413218135410874717749786385074677399803910303350564275341349232215405462124269950865204518202992123537971659046519483777290840102776198417659906649686264103007863166817896468036432647857474508928635634067800402042357589459140068112545100430575161099419384415716537044392045209515974714349009589696650619257297618792979220283145057689802243301021312985067057851142930857925269465851738370497796989253387631104775444362466780443137928785090601006119642619249892458250579738711151238993708015209756293210351668080069666901399715518951602257833424266267903781548398192525871178609324377697147818601165215236096118831667186017018240739318891345352346452338039500256383714985996800639058389115460266883650174713599150323154232960802702981791851914464282982199511114043070619902353892124331935726893991389652220764645798377121842525175903805816203884478542629219385599471860453625800476019055292613285779860655357286506417060740767974454837985614171614254256295699708406545908009048382997022228896502330795506651999919472170497500424316492516354609179802143038392668025154723951304543046036246742540932909961957350186085004289638286155135341512943379786024003329515877014472546191849560581568669796186508475346802110555005789914922881366054667697363642177349118981190285068570681853733848508728980157575687516599781954896027830451054474939664470456958314792101967973287829603513935173482807347966357451012834238054723220215008949219949481737884907951916012370593696495365602578380157128522121645730139049720927779598249438526631336459647678896318348298253875426341224402666259767658101991435052939362900283200010505792171105834300080344468253639891575334772479940254643438790057761112298650117144951468971797252825345718899735802732593900490008957087136496994242826622051535437323178454908147554934176159640749615655764673900216250399219566078360959265895621248635669712105484081708058078525486272078687169938626276122174476139161215866509849827799072732093244683440974233389110324063573420782982462191822837007192352469350060334077459404998160788313044030232881669992672861316625253674836331418818671821942702994220262608668763171861491046319456791455209331848735189184004967543757093074612321362770977051961625631765117721424215828298587915363672031281227709621075743255586389320429485397614610819852073754576054773114684098849202210780165739889455808036184226504768095645219313519368012072431875116149839846610693356089261684922768125501083640094722125426594073262628905941729945659464622009733385911451837491828244277420304182809

def mtEndI2S : Nat := 2

def mtT1S : Nat := 68546540677076688699479997338516621104119259343211408994286867288505541448329258330015178751268961092815049965748844945235974721357725308452377914235208969242711194604830092424429594996740327203844670818802091703158176094400005489109720656069439268367477148279913795019303366638491839462243292476368869563346031493463745800904044092713838453892036306256332080057829648934907123128254129056520480352783572236683892287030418524361553020036336843778310900176741077155250013283497733609618370470437101735750570440400126683520619760323252490112420609389566001936898611030828571259909744775460320843860458674478194855048659605377966930130199639064802904931577436661149262655291975101480113790539838877029559120137069277584827886115695268086044636223554746024777054063577795383132084254827750040999457978922562824292815014450449544587785132129813806729968737104745717932102588567286569874691659321329905133195959686049103528914179384370814430719726059269268509542845953591899646121466973431907817471621539500546330928232114233081461196057358641133340268174597138271705749956849541863178376588018819444986920891074195915572603720421497231248315741982911231444288276455266147311999909348721014127576791391819030336958133091270900616866074185377096219844451991991931465169155694380718027825965832384979401464250381551521856986016962627460448432292054066975540488772128304247785912296980218549101699925914563455833469271880974230013588846184889982611835026277755481016879494891620885586633951668213094857260676772293147576361316493766390030606553133864080572561145648766003663930281722012826946685879199549113532010388497102117672599360625957578784344719895921626284350508357064507963274823977304759510902185932050933190456808155083635141585310676325430717467260634315692881505180018141574352667920416189676897281897595446018346382823110825545412063235185193822068863330807371444878046039936856717155273477212881827336881693748496451777579471394601595688031990466312696308704723703151975052255753473473302124504025456550421213422668495646238999900122308648793612873296463457238242320105600128351618197163811538422585501482192151239778237197029414356117019864580145677471266373976103151234839729422989044657493473708274990289854279542248767148924196673543643242887735466403613725848951855784875701213035139100032401337272921924804802638936324648254673070419245032415762371456410197278493210967024080846398265998524247186825622254336751242609767543781853162012361643058963845788091393854807805926784429749663549085121146394690476436662641399784297686051369169540785924022540103445924422563998854686778899934999450975268541337792037237671299206196338804011401416737757962374092627254436999808541392167098623942083331419871235755393664796303012113278962947787213350390541382889285095671123950473212311727703690120687962341336600254676470430226273648419687355621407066318977750609420532288621363633251023268851050266932663531418537379673674042325919614410785090090341400753294262266556763942365360165702501022863319293688220661063914426991764691468033444811283509520441289362554447738573122257451890784771779013677758585674236708273660643501870766141559900859564353852096027324577869033947733154591174474728289399329091093677299077120470000363976675036594230851513277586766012673808969793879040387549252357496414648742564873250850139258645776424094331039192039731842656717510485425848391781483959251582289690249099150719850404531836810783277904642263951231922103143668824481321934922915431785561098119892010964681927993349331163997726804891059322415732055489715460590452979898464704622931303718105713297399991304214118249063312338575548512694772616420246485225413574036695118157669865426752278059545918580281507897798092931453960821048711748433575836036952695615496335697856222100730391829715344537316124279140694407790427929685194885837389450263963122715496718900663276959747618265791901630820205641703888561723695091212517683913105964255633797153989177668715391198310821845360012066094219978668029757176148963376487148019606049220709775911759931141656951685533295405957958443168399629792203001571582119425436057059742002734063234520535962490148716129647252851043442758379751897228380255311057948306961438063516245396488442492488993565744144999975812157300430347081000881272922120956430311704607864857948967573096995730558822047713619409422484775572508564455172080592529952845914706706760870225199620253013924893560602127667424868289897942310746721770050481009598795520492352784026795371666318778098173996110716185878484387326804358790722017031875438739538110474722770238673555706231859523996444574028435972799725685913044317199925487738852434020791140724259869101507816175664881463098724964968712811516978607115021044888517959049124008011404745369026393608700927146043611915620253269680636983270734957831332177027160345786011353435394758735014430218461571202983269411432734993856742498607601299301287617908506773039545469670102147197643560189818048884180741151300806869397321456903677277651644630339639949473430683870995499836806266929074418245347938752931130239762145721992545740614732897686654693789258918828358384693584527212206514225759516435547420003295373612388109357631530593531831905378432842940694087195595974416219583574409101255734342097617923324714500125690830676323690147362699889729981842791892843832213411212189429235648638205960392402034274810392812070089160062991717262667442566953451929066146027234551230164754946831890396976561218889321973569016733061796429591088585296678763274400525488332644928151223879661377847683245306942944935776912689736136364292248567689280141246297297004714657357326549599739630238275136971824105364959143568186929070806375372936819915414047498685640037495079041621407089448542542524732879337354756780351564854560940659718278399994912854888332169819267381980888188121823720565673192557141768600652167532513406846919142721889159452648628117385842252102692376128777900564762085875283726357693718628410142707893344664454166676416367088911781496375080466013973188901708501752786389473

def mtP1S : Nat := 76430585620901747304433960613401996900945386652839023688677127083650026332306626697846298210126402913109194418239092188686706185288337828559162931465531473953478988164216897690063834381235771119239098119694424542862701004753275119989339135366549058168085701287314655805979848272555269002535790288972137094557223074162548686268937191373346777041139098964529673182294202468493592485970011946453651423809785983638895017238000716563047890181145146170819526969245095206652286022525353101302804482076472386975850670952006858393221956675978366973118076002107869166221318841994815369582833923551858882938979696422472961495193955125715888930227650746850167782593488593302104504137908121186858466368210959927103613299663736933939279385771501104475708653183289522227284606877049390335609959750193392885228031356533467375765224150628562138241809186650422060665977025059296731868174506116928608602904099399005394671322465822286578493672302007196141406364841930200878024824400489675844503747367052330045905247500839465408559638306147226518855344995520809759369841486922729864020820933016847778897436588902632012199368727011246969530005992112587627398003648124834315749007095102257623489742315211648698746688680911549616662611442716777104674868559479293494141731585556719213885780878743964763125605544653920503917538145359427190826771304700579462216340835380610624607111263085526195246335050751848048677193921015712172570226311146813017169481147691375456202505556480618155713735860938188459416863575739721222724777509320680413997559068562023479406438064196356352307584390438127235280568996438045276695429064814212022582087491671239971499685380687162381810480916040983710842343094024399848938709489077124334463243576515166853587338633662157257678248984682376646291378489429614432700741342310894634950357325525592396122444814884970143229741459809599584973211964181631185515187101031484864292484319290664513713969606674274612444450847651751549847621115708076623817104741702802416378297645838532832270771489863588463605178341375714711504851156134723046660266522308445922648069919178333904514299849769373547978957442551899671750072038046493593148871969983164504879316269110167538946984304440854012115564866922923177946551211740727397279636541159097344186603308170590221396420724037441585125704929993158595334696408910518462207240555622003669054567563050790775355564618376085964581192353617350171001449238531112533889670560891421971964691454008128235841224757457479987152170808863894780232790837956363599221076282794811971397250785984141640790106305799544712094105088458851497022223169053804326640031703394070543970966777753286148268244314354862541589336164281366837670616790591788057794467863904790728409343804141696360962485614918371771277773501331084523154699868373843178707384641729044377766907586110961212943523472020151236987225797421222785126655842262034732510222159240380113486182092916458458439478215310058020113532864061816519067072742460214522553528125392740977075625374039102313491513484341801725876595782676529701089607320007758828507386534241197799185017211742620509252315446442045765647932240848197961861173885133252528932434418321631011629158472821721413611748969537125853055377098234761132835704553546878649766294820775051500533948656103787380107644528153147879453358675059556928519347516765250724767517901319498970462417159557079066042421689581866606157373032560639823242861551578058238068424622422597467834267760057503371527782492201463674132888791236619220533805420206410756905055687433372507763010638205454948662319529510347801416362307525242761472263330627363326491018674358554175554809336917188036089415149747253878336765015487765250030020186180439884559471857742752999420259537371502311568599494463285003128939380186191576139770196083478066512522873469541739369924036739748812644181522385147185532199981534780480833961040961322922404663454727994404150454578041807320534468187310921492804102185563855998512519959583380663002053717452901337184148177777882673210455680559647549504254151708763401797062124247869072700772927225373066191128256407786837041652212674114275228259676976825342061496056411586561615383395742004462382893623689428152631998247068552499681718797604366711696576242303995481593088493272228170409655024095185576019424801337468285170682921275254920692899519970348642977925257364158646111989086068551037640148162236441770305488694370575642649389917079929466117553378945581706758940511183626542623320717812931899083125531270734719748469329729132245087177073961247316382453691374265522862200001113192532850063984952160570216920929852171250108563697539156947042560563112071991665537562623865451263699745464981573965017024939429913336016141722033306323265129357594422900374400452313987056988025484713246996370174777533989897663306788097656260121088124108205131613654668470700730437566143595702548112934488487384967623835078030873052217585355940941625196010412023144520823660455718650935007054229356384623690927381677097238267798309534910800389088899347295113269666593649693289398797731321016732725182733504886325276096201604941103647645375244661826160266559389114436262867149692018633158924624357211792149030593548318302701418894379843814510577357444584909093915222488621873454840131210907098083373780576019627588062816765181492611008186052723461347281206983647416708031834919772383622625486558165551564415395104954368718978408459844885087525773897264349825688691866829756771515168871929159194231455183872948648920238531498811021200474134019725949965586083381614877513257230202802876345786960164695830779296932911387850395686049878291476324398115749420977949225791593868066836095091431258930616286809078026017755115118395589660394559916399595187068381318430107288151964522315111686324186483367169652559719651765011972368203455280403929165186903516918655271210697896715416004195671928882551791258713970711365089711861288592184636904743012988183003703266073234920131360729796230227162083733133142569131731054366662907214925877260021550771071058520540271747008779657849334077253056946767714052430745327

def mtT2S : Nat := 12798549799985673220507183203451542674346346636208929427943553757820765084392513858262157300993039589915017626119407842794667931262410524971456180029376431518984476710931606841838147396376165616233688550875374416270003530582696042039632945993261587772600142079243424716310504412318808985486858880760171303601069902559271784627680885099021614135390456259231315176394251217713532498720412823193706409894297655410694537137438106926361090504066380662190459820355218818308487498839606881866613984077020174496750963581131901970423217727125749016946243056209971089620754893149373631019065715648569984343463889941791945066043608287931212934626570518335216659851159090808676937307303502263401185061392751996095557077736799987102331741784472268332930035901177358231660410576391265685377992327060495165186247390184072079239111131258753702899862596487538115200261167917538844118548830714303372913979771038930074803057156314351843668994951602187370201247198311139615695046174171695829669068894089947506373577509838926945435166498054198579602979840186791397689183517885519843682969602200073780832926285693551682652838010688101036382126263175723322663540137027042925949659273573225067097216636180671000471879328468227491040036774872358045858024767813414817211625406876253242696703528952950702870700648152130736660364088305835684697952849778624365918227026661859310356158299782541642744099517159487424667123683963444997883549645387558102867406670806023461575201871402153096841056005001957217103666406155158679002763752729059657448095894717799341549061814190328081982850720333077146405627763882613641945420934776265440431386236926376933318196448844502909036408427963384465700172212043636442658641892231898058799370979072772932350953668062917887478017790860601684933493293483262876259966812362512814687136631197683558086494853166773929130295785304905024042196486077052036590836869774640073625739442770227563340354635046735148015012903633506267690967982066540853666137148542699598989396222328269606988811916353278503953518838198521633055318570217437342038515425823350966781656554614620182119338785094045440476128574938364306492154809621414509210252881316160375951984701293088845926652320183034273555022616854563204531926926368957201085958217004855108596587026960706883699932923999211391870931651811854206344168211096630800001689822855756543982183978709526682698576087528711232256562448305636089361116656065534449323654334907855245252878836315299844706354272762259224270058849827892803129772954540375259107908397034512232212327799143430851714834211934511833711673788247762854627288475916695945469081023418350295549463009110040325514235707612502314360623789473005774258739171945735493591671811088400501764795180672126252794440950627575129484899092985690068098698719274335925638779565183258799837315545382766027690536178675160591535742861527019885509493915437690753122714353602782730428790736593867886837852078136690203070895129700958604817489317522969250784662853280607514820129979298169395554939774688973111489720906250683654552897722298417128696811474807456321246898418159183298408127010990550370144213266381984662470842228724749832298607470239231992562746529204064318267650124669567462534076265476766386052346121122364342819665946103280841924807307965586229086228850363074024909174297823194800732964668885840675425171728148468275420533890211839237597135370114807732363181840444887069549809258120623277178745649988125054598018783210784657159777353084264316585205906220777492884892194591184870407976159951536965723711812830866155181504561004863950614329380430254243585910818201966853326143998328188107340275889430892065827951189126774463920332884750816619454318751509806740128399144073414829908269936084639657791828961483238099260219246439210349584912722429537580784994438574001243973127835267144322752208437154544381652963341931312783099399635076936726505259976709365805778837230634980237614949038845564009128789183893433988748649276119804410063746561005861849402223535576104684741768283632333055037477214981793732199344112303385903104653048925053569749209634409983710398524844921921699579081085503377213840825248424203451630554279833554025546975578684066470128522631715272934024426964387731025644882609125359578926425984970954502739406377651717091450657748603367093490166188005251102101085207867122644510455174068773883462021355223700500236158048599318489016491735194130086345118588596519882631206228511599881553267633355064110713830820784073758941787340178218173937775792899887680024814839612407580989167508823876461630086764633643197588185228511736519963376195591210808487893604446794010416316877346954089525733039380494482490816809489777917468764671834546361282126257551043404570455314732870082896933904168275226730608151176752631355486193077955348017408694017533598847024230745930602002848582003519234092344904268015211326044448674996569251142091268817984742651374832417834612101329781544996152922333408201790454002738235290925014616671024158180251494945839004378696678297390990059838347462939495261318787110202596478067098238137963872023189127022147035289664050922876293770425150681128277908885970459095300940133028858457214542215892063414436915047376483335636878469937532373976919373650423559873855478503295062934467333645236911361071580994839558667158457023598326771283348414463133338776605915869716725281432557772795482850592526854299889045597692288078944030263737615898151216636469886838280222433673722559742988045498544933566239843873055370152475142882811344230503771498772277610380381285797891410310735922324400948193408189933966730244163299336319355092134992575496497470753842343781660017585786477493513353561831302201318584903560208520012712193345538707682702673494398028292713637550116400494631986285079645971457891039095029620321972235783619780097286731924935487470032998410702218857770756950483386358251436940637164177993949478039866606457457804166144950269867393894707866711377795519645822876323699862585683794561992650694306806668642626555862602784670675867255105540665295828332060967072275606897737954007052957

def mtP2S : Nat := 83210815022775823230005961559638230951611273082732227652805155634040812742883169101151435456295683642328023310743678307687723854333383949831033720461794757774085055327328038604735685342606646878393609136522005117252296761636119865482208032573190714779003548591828251598656709487963494154756383861222671586412121765665557428439880880109087426219513296820678962378796342079072979209047194224970584693965090640306565199553513297038118119993804940398515862046313004055127790128756266504852262264575589425417192291356113209223610279314131211395291589801174994035741176162783438160738158347000553251852884951948648685990542671312317479584905513393508628101636421309861192318615724791285962691284545983461955195811127055609698423196967446926106656928645802474523614080593561770000756854286621422188712178916343610031316108150080621028137489009629112776448365873921339901063367795418165195547424998611965399543537683064080410648112914328167986032393663048256584262338031895376070772271554985676625975916336666372654368841229754712417531068583982198600657777512407966869593174512466464927799464720980544510612228833882833971123290961681750452785060070336957033055884416503716337515593116558921855829276719714112541927264611190083735552409548399376779083674482878566231721160586874485988317131082857076255674276531193083067295324137074354929804449624114920204715295474712717291320462135874476386413321107873083629386593077817445600933470363648822554938057249901097270763580491372979601355757322366028881390195161000845180671613408696424874696847136559410735590685384141620085575019972160454521240755278344698988354985837573683014270321329760059801666680124607784073770893676546846780962211528747637083702618316675311551495870169362702758928435110246770089552148530374310884989862971859897454977238680934378230107439012640674589088198890466832961543851370189603534283029284523076040704532654962634647687025197734928197217227067198003329652860198716299255932123742728231271551315959999596795847354475893792813431117251881165203357946380984384448647683472856516158685862172553619969076885910253906523694596424708903481288998882135742812738363716941177992853351668225337126069751321751179574521062542202200798634086616228386012228502638257251965077006937401800973863595478976000464916394675257870757191467825341717105499439729987435053379618144306847243662905950515180818794443363873398151475054142074122182372531200497545263098119266627646411788688721411016974289580650725202035749623978346067861223984896547884063406828133249792814416048427739621512824228886354629628981713390730206310247614787720985853597128110213136380140809078149876582713064506109655352781493950250762700377387100704214923365409497860074701787053407159316092793478267113852847139369557192958473940024135671209806419010897176099133165798169508013317169781164733212364262957018980693678305058092360780006139664340469689575183495796375224273156258450962439814724803084738292868863122546795645589778698870540291798521423616877044154342072422614134302663952823798034362283786875277735158360644846616711614296528566255289737212361739894767548072094759372915415875878962607615991387488318795205369347635838238952059078757044087591656553023396818689241839689584968302700234994948746613091596759689207944363729509864551838661175558340579132710126223970321243625322528075606867485135370543213573393114242844592262589884909564145404902925472838092066660497689138698821861031661997107835112567884717929354424151216016094211732973546217282381619116562816783177002568819850524888377577443762568393600205799418926229859463522111764684000925619350380732991976659099185140245373966661370174740918120307575360971488763058551926582995375669802352732638492313035143337240811915790756275716441664858850809050336054090651965804159269334132611876119387585429627716366708103281276855262812731613875786839470048629547785367060616546652652148514532203143082205147953049331950937182762964836299552612732110235455915621262307737326792542475071463649287061812137406489569223921064547569937907750727241017588750800202613632058685728128174343802354046377659623645828599957262385148178589104287217754212882168335325270227383985897120336700959094813119297951805696560709802887767513165458738084137743750881045980935517437645999039196645277826775068235943751431925763088545035819783840113482744487520254054845134913386201666298306350870634378072502983522176091425998965670207895798643690724434747655587033652226703534389461820213604365150849289753160824666029198334667716514260310818800289869017408973391775847562777745082431877575032157533065877570425106668289096540250630694228889440337213132857685331461813817795070060327386209301114142036361816787518866943339067607498147543570418412081841522202355979731954628429562650212100935659690710165478815671745591764926826710028009201272276171735311950165752274760254729220371950083795943120189722792578618894226610106721068574836085506474805886694620061647833413488518680979830198909379240191286559803836528010653503473964618184083807227701881670297384195934054930927927314984384809545943838369115790144011985821734807184374392249261638311262179373833050985715942755934766174774852147741483565825336643090760148614340121652491664907805904577430078880270033931024787484929590261992732515033012466133283915847539715924045307735820164663827755560885724260528721613026082250796031872333757439495108192972046205764646266682914868003821971848064372736265771854805523356044954131695010143038974316285761409983912771298152890613533264465291439881908052516623072529796997600733055819943174137522837114645369164507659036980053530881932729218788647493179324585317647392542721069452421405035616753172889727928043288920855073867981453982640667664368142499936348348779638172707894583035417322459783736460342241295757770964895615332887073146040793988900252030885061546491021041448698402078315514060480597600284473829861281673449330281305955837807809276642433453535171991735611353932356041567614248615407614058291637918789665233148256101693527788443947394

def seedF : Nat := 77773702564850839883514498876378628532800764107147604677697955595057158813744

def mtM1F : Nat := 91789175741901974917673938046264485922656120241290981178575381235621031515232538658978074366645105865446722421209264842041015616259138545149634801904507297690085102421543896267572753848514327665141131694982987205105196272173980347765704694787352791501255097188368764018199397010475699211069608983093352412071056862288340627787373280230360885386303245339380023897720766534764250382556827495947379448333134422437693314316291005617765948454704925338458219751575187138529013556898933993132978097478599379549209002519844327168826676005838746499477345337700985769579119472794074715234107373674301170020594129546364357054423996693859041291214183656469887899005976394437780227017083863748862266838715894489661255239154934939844714901692033394601312680829469476530522940789447937539459754571919833698138393207126287479062789122139423741949542191006606671792918533167419544160285056705732540853722927893117119491431486895657225242724094634867133193829315457004806699789518600117668229366774650554405356076338553376982502029368251853706815228254199255644083161459146569807077085082684854169472589156141717271860757890505541293764539509109173630827755191676514064617337628917774151001655326950968148109228486220204488292241968903223470824842811531495036367475121617387075300314590204029578790875988507048404896954857584979899843883460146971498753429460612016104008887281724963432364446344947675746372231487336530896037223323336768946952547461598076758137808753005285489060166418404644984564699790454597447105159568637615054462253704983566920879056675019138311632826801927709550905072013616791091298207993894814262148768037913591805687929277227328483069774016110176581615045615869444192663838882232811945025082419880720403043707774852006472655329080692805926471670848106192839473902292134906301930368975889270729253825632063156309743236404509045490375278557945699112676320112336053176030761025828194722891732808899017504089290485561290549916882324966059049465448259803681318665898411777817883664610156249649368894019131485336845115705374379932509348600872373982287903023621107110855981783364334454982335929043619514383537354810648984453896389776176574483913776264209865552223773854594931023445996646543426020744364439598451400816062197278938759213910437601173153958136032262438274518495185179916390811238302124929095193097275221268056802192577930095827142117732524185748837646047808757188073014210216920491816270822254158147192421123867801669801148767706311592784679574002635730081227363543692105344246359354558777590647759001135360458914615849647252497990395082568094287772808459401655900021182730655737844899818629122577454642805950288278749021274076267489536026841547569191860753989105737336989056553621698885278635278294756512940167443774608622660517598971741545314312473860527655375768940040903202035839413885552663635175875376316937473008890296524719163617517069735374787096330149712250722967630200521124241074791276631954442424695431303139235041155964477297870723303543381686983529236701157827562648374197371722195031335246148614887571955558876589209868325817382124089230510834804083141678274263886491635928406018699556276981884124592092002328808669876944291118229983065586805316621268345206625418394052880998996771962643174892962837981885171330248555288526686672238201068705530323688875890401296436443890577828930301111915435879894334451958259119918846051799720201864415261297574425453493857133093486883356611662246237414193546709953522554683276250999030192638346448674852527280072763783899564647426918644069728633807213663904308193023785331715478393016108770498255275276744733208002109648734775872218473582658088877989332428775180108277379041974079616593363612984806537582467072221810097592784757086836864301035892538271073657892207496259694647125395339086877788476138921933740234253354044472837541548670840376656159633733042112587873340152843652132525188087252050902648875676644465460720718985611958934416299357434524587912500052273927795001769484952943079560432459507854766311230852056187040007731100489210228087040748202941976595425016195071593430853750648918501749416481899934974193893839015196007651230283756529581356645643819012351644624317931126840444546840827737527304402419706652119107320479843891310590987695113376358907199777397055137609563640844937387486656444335923962558307683911296720650916509090076533798976664656831209809788270365927933859364825499922954549959029846979773301857923414423631430751554133710583558419779567069099314606497586076056611963318557095440066750042203530515100455671076932891920358019604127029783394583523162857180940681009784567260884003397673972302728425379006049389179176589313776460781599729457062498146452399002538037354498107775205848027303038673183250271914054426620915450133893213803090182819013933434955278717361180241180954587566546790799578676656615335459761311563981210249548984575061287290536500585415890540656022592930936645302746967314781385642220882335153681099681568675952334890864772537672103667785815954841772345140857286601550066495786968388044187506103729175674586295488418018842747307318866783998164888650909635212537990792402165005438925082058517595897955033469988379728784560221159235768692810933105470596950755995527692654848116298584921387677500000522779356809988108539087548653875266058737815254040978773276648460312801252034253641114574206168260009414666626249296371126444164698686066084891500391106903135412844112370892466560133209883076918691875628981825094420857346795817358178941065266536855520503577035778938053828552374817743031616866509351994542023024157232996762097903268700279231123629813136411212494725778349285964927931155097617338615963375925598724229606681757191383335798046830598350398655485983305930855743456821839482607990986812583149478342064645270882379588826658778490436020799226867924493688913543187417545727736626374175791800303980267683014138992856843362798297156434971005446995945361915247473071053913001093791784996009088143302655381841051534073018141444327927225510772898151229331676513732100146125712549647662393351664601

def mtEndI1F : Nat := 2

def mtEndJ1F : Nat := 0

def mtM2F : Nat := 80505903251674731498194348629249778650333484942432856159885315399044903854371557188888080309253004497799182092735136317930052277422511817540986743636322655599537170315524498056978656216421700707253286792120167126537581949883420393103542891874417749511522349616256895191597929753189338421240639444808008134690644557229325690082429190426868331767328746033359605810344742585224662676030539976697157757158311884853661532182858462235931839139742188133867252786170159297176770273406031275304786695196464818776351791581693762501289120309528719248306624917766323320544731561952258174699042964573906553726501202604454609477408483764056324593919840595971395753933446709841408006055259865972698782055689348610282968536657208678119955125116091499375214187382739776918008064791538091515627270506790934464412835428119493025810988301451449341807673968744008520699581862716466238834943576619123384325390461901439919471121020924069354448932323156397713737370516902847865260830852322200443924660566508300347071129848314681678875241260906457787906524330565522444854383567880122038172968127705102935281091573173670265537092897923385024551917775866030190808912334593233999099470347045455037504273976835739986713912368772770642479989576160808168919305552565094371327068511968143646332930110444360553127696453821399501492174278754318586008527388723461150609638151983522343067471592287634768872436294277574861597661297657949547082513468431581204134730748467153333149368234239020846054882506148967234992362093384662108909676153453054127705304397169102140250097185782999014070442340295309937216387325361789155814766487591487634224384007444143181024651063249212322015456826125411472972141517887934997110150561770435083674437070081222759402714955356113773497628714614630160100129873718350628538655715979029481810824870242379587436643460365284182394737188881153436283707585421254150219118042933051815322595460645130131368019976830395076847317443954344772827552166696129273900212994878880386837147742599187406631744499791301454244655679510913468894961790875304055243282511618080753927627328342818824968650520430419566657542719946480563252510079155765438876112181900258135514636508922652778253759718561797979868172278376604107953018302371845493724298616280937988612538319737871304569959763819605293737841115879546004616172042266180082581298460062725203102180453218691624639480058646798613006842167538475540603870076620959327505516961963274493093906468540511596681722022515296547229248472556197804033736101449143653962057108135362127587370863006707324405250350333515705576976100487414429195139917400574332120608853341524405924136361419853656076373200198303311265619617511743569382505739267098849799633607147125653121231107334269303014518668915576457799150729013368808877696096843802841796037165829935302395851877826855349611847661078432324928246671581043782444268570977938628405720308380558692609200602677426848921103464598078308991363226762014722238623301743945979629428797276289308661497002047970068910908399483272001999785128052585131960918499376774554665229219536986776429213541349573992595882389993077279446722135273779766473427999118665246309837623652330411733965298755518004292707223872986418553327192805318979612795678566898512450711006907119433693590336301313273824544814397270071254816789283390562605397088695298533192240054550341909869938928715532706014145659535607201700571536771985031949813243336761994678223358561172302724868777100184864109184938122546939027309156829688895881615407044638135246475140836624970031983222332635443683548356076555322666649407460922439720812520951745654097543962693837316463217384921453733987374563112476195282722027874563404525934537209251445781739848191765399197873416283650726928298691642145479001000547824569911454874949940383505155812659099636817415565158650692914944269898818660527551356214389937000233494773311610516211002424953227296632904360058288641174903383282071519944799451077858501421996487099689820195520088508363986890454555284580675662027447840085272652776309382267212210503187163767409252723772547451094273839347506359297000427537494790945386947283674930032728082140141965831798918749875797772976224339477329868841087219831918247279326263556201881208132583609361443259746898106986618761052045570872537935203513611646334125423138567871758960474432568171458711750804192636617479756121138229316523877886856103314429416560244864897984551742953822560294494663342527159327581161871253214881741310083189711771981849509744684368233292724503468754007823429729752295977222606940217401965932147714741884015913917402949723594517033920806668247300009890365167246806060668712808096079224140193413280733368520852097058474627151734000650863321053637811788101355212281616807043308772522175675517775557132933545044659667821061802325419994207287787612843331148205159936919255982193888267064176403660797915665428295195126714119925172715525650293582580484647506902703478170236249179251942844131549248943115256512608680047383427162238228580211816705293418825437213653431145654598096041656215683583562204405576057864975169497538933926407118475792922240045707541218171083886707592893112156199735802704839627427028831585396355732254292893893537639966825371985220651166717068689732428076920683449634047663153183470668668690161756173932985329787076471803672998970283186911233234457475674883312580610795744772704416211187458923386624528065740030860465417339691118879333893430837595429903298944928363174697589669565424462170239030805032394872675159839314037527368854137882602821384539180008845145849444160402021686932680019703914880135067072509453146564879055892112477245017999239474442384726290327453186290657656784558000464813498584786347870734695144218098444089334577646667694060884270285513920332724086001467047326521496493376556733518773197834583193445981931340869615061025304831284506223141329270324502782941882726966437688479818981336008455599674067550054349364631109926773098234000727165190173040727636946754338860739812259718959084173828160809057708759983236663854073086823289649431671040393654151919135

def mtEndI2F : Nat := 2

def mtT1F : Nat := 85435741515159099360512038881332800619422659571701587762099637695052139340239043464325951524779423542089520746999554205080581346644294912708346281043454888338778200440931904232906251813060874825577706387368349445670213430705628668616174185724325338420790696759543461233857663466977431671542225139446101935088970006007086193308082835260056844176018124860210437758724751668031941411188209050025841803504055012549993962311661901790915261164805265304981310956082886545640496053321775722676640786649625841772170507431804645062791967428209323764451037916413602799702219310861847025429124816563066660657941302202760151677244298123208853836984660414813509770114915095461237444234697767344226535258384181170758706273682659594259650171169491486883830006904678543114212729713581484255792631453748155271865167685737036586553540400096021657262917855812398730677018121606727057905880494972123742145469609217055852224936099261664552014346507962746153308837768448034271362780156606038486245870554340375860495636702662267232772100388822362804150042413324117139293193282283265203547162663627153235436705758581473461361828765681497199229533492864233307666824770076289330048036018529801102508953442108420204263990056543189802330094404246138609941637203821973807339021810456615615278272954040912135386313629291527320632734043478238913000011776845737246779969169660477242330735260334582118200594558811465553182896156830634708550355102602428174741676002981184816491446249866038914011752198372184207956737363574631674286247039003045394285406698854122775738052995051973938438938527077729895891646870523516248553827112041788166012327270130218983591855310444240066472105311026650797151497886937906612785139137643277834398600881217286584288403928797449614526336271637738326940465349822991494293982729472815522964317697369674049754701697293891801436056240084537220538123797203151257458749648573344564760360520983510623118868213771440944560081856344073802534413886314807077986841804754974519814359435071767560079068614844926856624051383961033961777372423156920411661942628954372394662276855978439849700242857303662958767495075050333988803991847678486505572980043532933884400222311821064004635267863029226037929147827889043581799100405015852926211816782445061794632424464674979064728902351670646523887865060150285107806630677617666053558178067675482297463253819249791218554835173196904439273888442058201936192634493000533763204584391440378018152882921154770153670426211772878400817686519706978211558524811711990881509802120340433161598490016731117477814018821895419827660104755852374866115192980538064120484123975375201441910613926591043525526405710852832689071180694882511445490482433873177609215453686061832774878942009062470281185267687927007986917472597351194168732108274834315152378936142721672648245768754638045356115933993794910592474178736949699315259590997752697540708444416204105186263010669588595662676111316468960927587804944097664573795810310593305876403099147474562876610017110639643741360473501025651502248341913943347877119056680065445832315328762096144321634828605065621569161533056100057196648209002870393520872373721541350459648016960390677611369079579080201778040246577348623874033686915307393971473509603432361353735325558114003782053272695189137821712047460701064584853588777455354229288277060153587902179360187665256871172027508696317055656613029903220124089741179303512430126242874697779921126736119075778373214050052232761698324669874720219359783463973485826385255743780880369046972137103199242701716790113106316885279345540750222909089194589163388452031207957346646848685329134669622306961090899512635667556255352701562090826962976702081870761918263216995417874617852516799150397531960978367637974686829965846582811585183459418819574895434872300447362514191790116907080470362598743627360227271144525336600995370839335737905321191897004350910274169578848993744295695101268639040060329119598398215901614248751171567107093452938328213735108268306251604874656798146394627113045596483013085256400138238276860734132293571412060549552225439501484455590925510327670212099014402686026986199315991799833502337597119774340041949861146360404333514907022779243292695576334947131216441180584679166541827633043232115675825146002110628893557882252626359636556735933993913832319404012084657715688836303472148020381577639261009778241816335893211147281295032477622469412933271840394703893321160164499453147636357352893140030817486384888665945669927241064786697987267418555647670885037717645378539479006021162036650092938173829323427564366275384538320222048418647414370804680830197565021754622426511342703810683178839636735657496052577485537834387706972182507175153287206939496189328814218817103273261870533260324934000386891150302969775877954720300720889613319354707483732916627954657112416546885885944668529563237783881700236643031008501932996133751545568839950428218720284218880249197828715161452110302368622683082724317269250377820318743386886728137798649853328039187881697898447646174633407912384516491043532724987339518846028069151388827768514166464232929702225176635556490265225929737788529340419354707614657830329274506596686480131764468512781852079062823956651395378672736956423846613308708783558400869384537371584952951979576987197403018519962492757521857325252530249493734810771496841495847346843439640125873057693501293986355620469360989213048566731217818762811724323827197817388729864867056207651786301702080127919754510200471739547785783534088080054435776400340826154913368522152596980825170359165525667216719897874326036245465019542560627576013444552458181694462059138967703293110750502071902097852910346450285302229789219343433190054589411859910655773607206580168855876329720765314600433442033751807598481933337880345635805506876421958191728108153986280904336405361386917630278707210893057142291102210386629967266506185689833816163610484587479344146340363566359430437202424715115062783790469290300312602300774785195933732527462404197871554234437487452238585444393751185317996345361563481650777141909757265769120705651735

def mtP1F : Nat := 73382581640818106590770127678959008219717910899220901614371161535136600384750092211869861978747913895398279201927082512538952856015989722553604052477612195137566456805848175046941362864319010350907655140275756430952861079030372711152323273314818695094312518217968507571224368459923650519231685073340854820729165822106086890548973611192670514591058111225925592126979041061061972292517380797297423311282678845524680907301707898664793624822825142868705853341486174901404796898335855765562628399448681750192339256139602092592520538579463198364365846058814183230658424455522121928369173866192803379129790512930233987430756616702160232325693999717258217309060031284053562305159205518773146560313464826225885263797480153176626874648071867257355071298991067019238934407245995125733695530026857649898227678977341446281448390095342464543657673219096640059152564920210014662761583079147360524998800000803815340549228687550208201617728611226279712277278394800255477922054825870839497193569449273195487278062596806396909655136897763500945480171420936572395332238614244735787329392572743103924247744060388681615875631800579175898685912728339173830466975277822262984349796991722738901495704657330030971048277068523838671864040776395269549687196819950404122199511045385813065053853415536737690396124285492815933814112675133423817028321270371970603736951215342970242994744803362480747183700172069346511576628576232562111973864805002411113192863530632444026751476817501468476718854038744732234465770816992975191433931173301606988326634899147629709929026292097400457198192027929973756847698080749400682623603529157704466759771922825889306608820727559233678699975846492829787940213850559323876655404717519220605037098234517978631192835137158171652662365720714182834956067750431216368899050937348697753817798944115136024729412417372260637354552046187614656586140290351420214100142402766628468705658970630167118064880161761837219208564741383945645390578101544908277216572321970642674051372944924882593125441899269545152566305742800110005428701125835812596971771704330485416143023335460791122026066772336462032884494591821472057689465923361914297718294698023443404433872057868578465095938985045921196031193662856690759287551649076936783065255040274726508724295817685940213406070598578878443579212772135968613952448622621378666328779489951629252884579239888203865551728314129013557594782420439282174391749819884470496712318278448623450809864185748952658449079152599667554063775780968793202729320522417246410456472524496871757575994040284278128812867266071396234979887523057390984093129100301648289473406113493144293947635092583097727573122570931135028953261033461810590597630459762916491065212863765700647538151013229773189095667881975352085631357183452606837662900418972842260431351754697163427125593906215611483847803561497772101946503324563718946044840716231159122879115790923453126585557273261434524013839929599919973687954725428557159499924074658873644156445121539129058639236547889938880080920157071211983159726447344117136271182175088810246745922185881810173182782697903623854098214629832355779219290127280147806823682460872414801743901014202928096530130893617389543572823271284394648001321249220114293278629627937822834231752374542735509395215636023787605706564766683807747640541055947999228583573819253914705196316562252578481050728254894653384998699108640336415774909908241206388911944557766750782054431591819340526637779724000173689267753857090027229377359296693263851583271302187373272677079970013609852245596607598151549792191867120687314778031217250126053640046613689815147203631469885740016052384912885122068160344691912852561348646544423255489744530409469237583145876171438436615060246875185667582719936555553647247129280149766470675072760241549476664561344609082356108837243651962191634124525307926308806456401844497307481519041142812345806329519498535279285518866673378974018426820497378267174050318802333168384701451347662173042174977431257077977008384266037934044410627485903416594060837724289962795730821659841394489201302476926607708592972287685577842781170860855634547869705722224566076006399273086586636117618808592285825023094012006733700910675518168840585517127137075103593231218793610148723031311131799344346976521710391193674187345025564098452516483179984110493369826440830722995704322055264742355588795228060057389052793493953218903910240259872754704159895094215016988657873054916188234848439380826835747205440780319296459818426751592135162819899893321662208052463636651298929272448018023142322941921696916541051615499147975779087475501442013963153441993707563701904137604087771849013321830164463584671606315243754946839829068792100971022593616577205447669666236974510462619767851896299255115394204203099876315647414561676853036096717306905193786575878364927279193333900624730806923979391488448223051807055736081799833139260948606430714911495118887111564729351087058344238912119833480139259015926018164106190314630249519476233873714005076571139222923095733522346945833211415870304870797727753845606305472448319969874894203023160574442778057265089334136332479540158026643357446730868511575118872168567836843113819790212455860221188807602073855923980499077720908073254757171542652752738616009832796226469546700047964150112807808203127010796963334093432400989717062139350081094466111635306320342135864842478984338063080563051583495970395472736901370241538652059520410506178283651537576580636355257658193175360550300655475797681548115330505165084981304926158966861902278619946477910840512765827094458024156722726446348244016399621161947097624995320530470239095873714473761187466826713971825061200446219634440103389026660267021996788626887820711592389981883230983073033485839734453075637513251959467344280641602973985137070237230210668790083376434529158990262023476009810432817270503250106185402342429557823572936610099576718899390871623427778272878823978260536455122962864881924603721134777761487417638503073602467010717358669430587926824130649865842011491883054515090590158849793243223435465582930870034637313

/-- Packed `init_by_array` result for `seedS`. -/
def mtDS : Nat := mtSet mtM2S 0 2147483648

/-- Packed `init_by_array` result for `seedF`. -/
def mtDF : Nat := mtSet mtM2F 0 2147483648

/-! ## C6 and C7: the noise field -/
/-- Constant unit-gradient oracle, the simplest realizable lattice. -/
def constGrads : ℕ → ℤ → ℤ → ℝ × ℝ := fun _ _ _ => (1, 0)

/-- A realizable gradient lattice (all entries are unit vectors of the form
`(cos a, sin a)`): every corner gradient of the single cell points toward
the cell center in octave 0 and away from it in octave 1. -/
noncomputable def cexGrads : ℕ → ℤ → ℤ → ℝ × ℝ := fun o i j =>
  if o = 0 then
    (if j = 0 then (3 : ℝ) / 5 else -(3 / 5), if i = 0 then (4 : ℝ) / 5 else -(4 / 5))
  else
    (if j = 0 then -(3 : ℝ) / 5 else 3 / 5, if i = 0 then -(4 : ℝ) / 5 else 4 / 5)

/-! ## C8: `_center_and_scale_inkblot` (src/rorschach/inkblot.py lines 216-258) -/
/-- An RGBA sample (exact integers). -/
def Pix : Type := ℤ × ℤ × ℤ × ℤ

/-- The alpha channel `p[3]`. -/
def pixAlpha (p : Pix) : ℤ := p.2.2.2

def rowAny (img : ℕ → ℕ → Pix) (size y : ℕ) : Bool :=
  (List.range size).any fun x => decide (0 < pixAlpha (img y x))

def colAny (img : ℕ → ℕ → Pix) (size x : ℕ) : Bool :=
  (List.range size).any fun y => decide (0 < pixAlpha (img y x))

/-- Python `int()` truncation toward zero, then floor division `// 2` on the
resulting int (`Int.fdiv` is Python's floor division). -/
noncomputable def center_and_scale_inkblot
    (resizePaste : ℤ → ℤ → ℤ → ℤ → (ℕ → ℕ → Pix))
    (img : ℕ → ℕ → Pix) (size : ℕ) (whitespace_margin : ℝ) : ℕ → ℕ → Pix :=
  if ¬ ((List.range size).any fun y => rowAny img size y) = true ∨
     ¬ ((List.range size).any fun x => colAny img size x) = true then img
  else
    let ymin : ℕ := (List.range size).findIdx fun y => rowAny img size y
    let ymax : ℕ := size - 1 - ((List.range size).reverse.findIdx fun y => rowAny img size y)
    let xmin : ℕ := (List.range size).findIdx fun x => colAny img size x
    let xmax : ℕ := size - 1 - ((List.range size).reverse.findIdx fun x => colAny img size x)
    let inkblot_width : ℕ := xmax - xmin + 1
    let inkblot_height : ℕ := ymax - ymin + 1
    let available : ℝ := (size : ℝ) * (1 - 2 * whitespace_margin)
    let scale_factor : ℝ :=
      min (available / (inkblot_width : ℝ)) (available / (inkblot_height : ℝ))
    let new_width : ℤ := pyInt ((inkblot_width : ℝ) * scale_factor)
    let new_height : ℤ := pyInt ((inkblot_height : ℝ) * scale_factor)
    resizePaste new_width new_height (Int.fdiv ((size : ℤ) - new_width) 2)
      (Int.fdiv ((size : ℤ) - new_height) 2)

/-! ## The noise renderer fill loop and C1 -/
/-- `np.interp(v, [0, 1], [a, b])`: linear interpolation with clamping. -/
noncomputable def npInterp01 (v a b : ℝ) : ℝ :=
  if v ≤ 0 then a else if 1 ≤ v then b else a + (b - a) * v

/-- The RGBA value written for one noise sample by `create_noise_rorschach`
(noise_rorschach.py lines 211-235): dark region below the threshold, light
region above, components truncated by `int()`. -/
noncomputable def noisePixelValue (black_level white_level threshold : ℝ) (v : ℝ) : Pix :=
  if v < threshold then
    let bi := if 0 < threshold then v / threshold else 0
    (pyInt (npInterp01 bi black_level 50), pyInt (npInterp01 bi black_level 50),
     pyInt (npInterp01 bi black_level 50), pyInt (npInterp01 bi 255 180))
  else
    let wi := if threshold < 1 then (v - threshold) / (1 - threshold) else 0
    (pyInt (npInterp01 wi 220 white_level), pyInt (npInterp01 wi 220 white_level),
     pyInt (npInterp01 wi 220 white_level), 255)

/-- Point update of an image function. -/
def setPix (img : ℕ → ℕ → Pix) (x y : ℕ) (p : Pix) : ℕ → ℕ → Pix :=
  fun a b => if a = x ∧ b = y then p else img a b

/-- The fill loop of `create_noise_rorschach` (lines 202-235): iterate all
`(y, x)`; for `x < size // 2` write the sample's value at `(x, y)` *and* at
the mirrored `(size - x - 1, y)`; right-half iterations write nothing.  The
image starts as `np.zeros`, i.e. all-transparent black. -/
noncomputable def noiseImage (size : ℕ) (noise : ℕ → ℕ → ℝ) (bl wl th : ℝ) :
    ℕ → ℕ → Pix :=
  (List.range size).foldl (fun img y =>
    (List.range size).foldl (fun img x =>
      if x < size / 2 then
        setPix (setPix img x y (noisePixelValue bl wl th (noise y x)))
          (size - x - 1) y (noisePixelValue bl wl th (noise y x))
      else img) img)
    (fun _ _ => ((0, 0, 0, 0) : Pix))

/-- Python's global `random` module, as consumed by
`generate_interconnected_shapes`, abstracted as per-call-site oracles for
additional-shape iteration `i`: `unit i` is `(cos angle, sin angle)` for
`angle = random.uniform(0, 2*pi)`; `u1 i` the `random()` behind
`distance_factor = uniform(0.4, 1.2)`; `u2 i` the `random()` of the 60%
test (consulted only when `i > 1`); `choice i` the index drawn by
`random.choice(shape_positions[:i])`; `u3 i` and `u4 i` the draws behind
`uniform(0.5, 0.9)` and `uniform(0.3, 0.8)`. -/
structure ShapeRng where
  unit : ℕ → ℝ × ℝ
  u1 : ℕ → ℝ
  u2 : ℕ → ℝ
  choice : ℕ → ℕ
  u3 : ℕ → ℝ
  u4 : ℕ → ℝ

/-- `max(lo, min(hi, x))`, the bounds clamp of shapes.py lines 63-64. -/
noncomputable def pyClamp (lo hi x : ℝ) : ℝ := max lo (min hi x)

/-- One additional shape (shapes.py lines 36-66), appended to the running
position list.  Entries are `(x, y, radius)` over ℝ: the center entry and
the `int()` offsets are integers, but the clamp mixes them with float
radii.  `random.uniform(a, b)` is `a + (b-a) * random()`. -/
noncomputable def shapeStep (size : ℕ) (rng : ShapeRng) (ps : List (ℝ × ℝ × ℝ)) (i : ℕ) :
    List (ℝ × ℝ × ℝ) :=
  let half_width : ℕ := size / 2
  let center_x : ℕ := half_width / 2
  let center_y : ℕ := size / 2
  let main_radius : ℕ := size / 7
  let cs := rng.unit i
  let distance_factor : ℝ := 0.4 + (1.2 - 0.4) * rng.u1 i
  let next : ℝ × ℝ × ℝ :=
    if 1 < i ∧ rng.u2 i < 0.6 then
      let ref := (ps.take i).getD (rng.choice i % i) (0, 0, 0)
      (ref.1 + (pyInt (ref.2.2 * distance_factor * cs.1) : ℝ),
       ref.2.1 + (pyInt (ref.2.2 * distance_factor * cs.2) : ℝ),
       ref.2.2 * (0.5 + (0.9 - 0.5) * rng.u3 i))
    else
      ((center_x : ℝ) + (pyInt ((main_radius : ℝ) * 2 * distance_factor * cs.1) : ℝ),
       (center_y : ℝ) + (pyInt ((main_radius : ℝ) * 2 * distance_factor * cs.2) : ℝ),
       (main_radius : ℝ) * (0.3 + (0.8 - 0.3) * rng.u4 i))
  ps ++ [(pyClamp next.2.2 ((half_width : ℝ) - next.2.2) next.1,
          pyClamp next.2.2 ((size : ℝ) - next.2.2) next.2.1,
          next.2.2)]

/-- `generate_interconnected_shapes` position layout (shapes.py lines
14-66): the central shape `(center_x, center_y, size // 7)` followed by
`shapes_count - 1` additional shapes. -/
noncomputable def shape_positions (size n : ℕ) (rng : ShapeRng) : List (ℝ × ℝ × ℝ) :=
  (List.range (n - 1)).foldl (shapeStep size rng)
    [(((size / 2 / 2 : ℕ) : ℝ), ((size / 2 : ℕ) : ℝ), ((size / 7 : ℕ) : ℝ))]

/-- A concrete random stream for the shape synthesizer: angle pi/2 (unit
vector (0,1)), distance draw 1/2, and all other draws 0. -/
noncomputable def rngC : ShapeRng :=
  ⟨fun _ => (0, 1), fun _ => 1/2, fun _ => 0, fun _ => 0, fun _ => 0, fun _ => 0⟩

/-! ## `generate_pixel_inkblot` output raster (steps 4-6, inkblot.py lines
52-64)

The two PIL raster operators the pipeline calls are abstracted as oracles
carrying only facts every implementation of them satisfies: `Blur8` is
`ImageFilter.GaussianBlur(8)` applied per channel, `OverPix` is one pixel
of `Image.alpha_composite` (source over destination). -/
/-- `ImageFilter.GaussianBlur(radius=8)` as an abstract plane operator on
the 1024x1024 canvas, with the two facts used here: the blur of the
identically-zero plane is zero, and the blur cannot attain 255 at a pixel
whose 63x63 in-canvas neighborhood is identically zero.  (Pillow realizes
the Gaussian as three box-blur passes of box length
`sqrt(12 * 8^2 / 3 + 1)` (about 16.0), so its support radius is at most
24 < 31; a weighted mean over an all-zero neighborhood is 0 < 255 under
any rounding.) -/
structure Blur8 where
  op : (ℕ → ℕ → ℕ) → ℕ → ℕ → ℕ
  op_zero : ∀ x y : ℕ, op (fun _ _ => 0) x y = 0
  op_local : ∀ (p : ℕ → ℕ → ℕ) (x y : ℕ),
    (∀ u v : ℕ, u < 1024 → v < 1024 → x ≤ u + 31 → u ≤ x + 31 →
      y ≤ v + 31 → v ≤ y + 31 → p u v = 0) →
    op p x y < 255

/-- One pixel `(r, g, b, a)` of `Image.alpha_composite(dst, src)` — `src`
over `dst` — with the three facts used here: a fully opaque source wins; a
fully transparent source over an opaque destination leaves it unchanged;
and black at partial coverage `a < 255` over opaque white leaves every
channel strictly positive (the exact over-arithmetic value is
`255 - a >= 1` per channel). -/
structure OverPix where
  op : ℕ × ℕ × ℕ × ℕ → ℕ × ℕ × ℕ × ℕ → ℕ × ℕ × ℕ × ℕ
  src_opaque : ∀ d s, s.2.2.2 = 255 → op d s = s
  src_clear : ∀ d s, d.2.2.2 = 255 → s.2.2.2 = 0 → op d s = d
  white_black : ∀ a : ℕ, a < 255 →
    ∃ w : ℕ, 0 < w ∧ op (255, 255, 255, 255) (0, 0, 0, a) = (w, w, w, 255)

/-- One pixel of `create_ink_bleed_layer_blur(ink_layer, 8, 180)` (lines
67-79): the layer is black with the ink layer's alpha mask (`putalpha`
overwrites the uniform `alpha=180` before blurring), then all four
channels are blurred; the color channels are blurs of the zero plane. -/
def bleedPix (B : Blur8) (address : String) (x y : ℕ) : ℕ × ℕ × ℕ × ℕ :=
  (B.op (fun _ _ => 0) x y, B.op (fun _ _ => 0) x y, B.op (fun _ _ => 0) x y,
   B.op (inkAlpha address) x y)

/-- One pixel of `combined` (lines 52-58): the bleed composited over the
opaque white base, then the ink layer — black with alpha `inkAlpha` —
composited on top. -/
def combinedPix (V : OverPix) (B : Blur8) (address : String) (x y : ℕ) :
    ℕ × ℕ × ℕ × ℕ :=
  V.op (V.op (255, 255, 255, 255) (bleedPix B address x y))
    (0, 0, 0, inkAlpha address x y)

/-- `PALETTES` (inkblot.py lines 5-12). -/
def PALETTES : List ((ℤ × ℤ × ℤ) × (ℤ × ℤ × ℤ)) :=
  [((0, 0, 0), (100, 100, 100)), ((0, 0, 80), (80, 80, 255)),
   ((80, 0, 0), (255, 100, 100)), ((0, 60, 0), (120, 255, 120)),
   ((50, 30, 0), (255, 220, 150)), ((50, 0, 50), (200, 100, 200))]

/-- The special-palette test of `get_border_palette` (lines 102-103): the
normalized body starts or ends with `"420"` or `"69"` (`endswith` checked
on the reversed list). -/
def borderSpecial (address : String) : Bool :=
  let h := replace0x (lowerChars address)
  h.take 3 == ['4', '2', '0'] || h.reverse.take 3 == ['0', '2', '4'] ||
  h.take 2 == ['6', '9'] || h.reverse.take 2 == ['9', '6']

/-- `lerp_color(c1, c2, t)` (lines 122-123): per-channel
`int(c1 + (c2 - c1) * t)`. -/
noncomputable def lerp_color (c1 c2 : ℤ × ℤ × ℤ) (t : ℝ) : ℤ × ℤ × ℤ :=
  (pyInt ((c1.1 : ℝ) + ((c2.1 - c1.1 : ℤ) : ℝ) * t),
   pyInt ((c1.2.1 : ℝ) + ((c2.2.1 - c1.2.1 : ℤ) : ℝ) * t),
   pyInt ((c1.2.2 : ℝ) + ((c2.2.2 - c1.2.2 : ℤ) : ℝ) * t))

/-- The clamped border progress of cell `(gx, gy)` (lines 152-155):
`(dist_x + dist_y) / (2 * (grid_size - 1))` for `grid_size = 24`. -/
noncomputable def borderProgress (gx gy : ℕ) : ℝ :=
  max 0 (min 1 (((min gx (23 - gx) + min gy (23 - gy) : ℕ) : ℝ) / 46))

/-- The fill color of border cell `(gx, gy)`
(`add_grid_border_gradient_colored`, lines 131-156): the three-stop gold
gradient when `get_border_palette` takes its special branch, otherwise the
two-stop `PALETTES` entry selected by the digest byte. -/
noncomputable def borderColor (address : String) (gx gy : ℕ) : ℤ × ℤ × ℤ :=
  let progress := borderProgress gx gy
  if borderSpecial address then
    if progress < 1 / 2 then
      lerp_color (153, 112, 0) (255, 230, 128) (progress * 2)
    else lerp_color (255, 230, 128) (153, 112, 0) ((progress - 1 / 2) * 2)
  else
    let p := PALETTES.getD (palette_index address) ((0, 0, 0), (0, 0, 0))
    lerp_color p.1 p.2 progress

/-- The border cell whose rectangle pixel `(x, y)` last receives in the
drawing loop of lines 147-161: `gx` outer ascending, `gy` inner ascending,
edge cells only, inclusive PIL rectangles.  `none` for pixels no border
cell covers. -/
def borderCellAt (x y : ℕ) : Option (ℕ × ℕ) :=
  (List.range 24).foldl
    (fun acc gx =>
      (List.range 24).foldl
        (fun acc2 gy =>
          if (gx == 0 || gx == 23 || gy == 0 || gy == 23) &&
              coversCell 1024 24 gx gy x y then
            some (gx, gy)
          else acc2)
        acc)
    none

/-- One pixel of the returned raster (lines 60-64): `combined` converted
to RGB (alpha dropped), then the gradient border painted over the edge
cells. -/
noncomputable def finalPix (V : OverPix) (B : Blur8) (address : String)
    (x y : ℕ) : ℤ × ℤ × ℤ :=
  match borderCellAt x y with
  | some c => borderColor address c.1 c.2
  | none =>
    let p := combinedPix V B address x y
    ((p.1 : ℤ), (p.2.1 : ℤ), (p.2.2.1 : ℤ))

/-- The output raster differs at `(x, y)` and its mirror `(size-1-x, y)`
under every pair of operators satisfying the PIL interface facts — in
particular under the ones PIL actually computes. -/
def mirrorBreaks (address : String) (x y : ℕ) : Prop :=
  ∀ (V : OverPix) (B : Blur8),
    finalPix V B address x y ≠ finalPix V B address (1024 - 1 - x) y

/-! ## Theorems -/

theorem replace0x_eq_self : ∀ cs : List Char, contains0x cs = false → replace0x cs = cs
  | [] => fun _ => rfl
  | [_] => fun _ => rfl
  | c1 :: c2 :: rest => by
      intro h
      rw [contains0x] at h
      simp only [Bool.or_eq_false_iff, Bool.and_eq_false_iff] at h
      rw [replace0x]
      have hne : ¬(c1 = '0' ∧ c2 = 'x') := by
        rcases h.1 with h1 | h1 <;> intro hc <;> simp [hc.1, hc.2] at h1
      rw [if_neg hne, replace0x_eq_self (c2 :: rest) h.2]

/-! ## Hex-string / byte-value correspondence lemmas -/
theorem hexFold_acc : ∀ (cs : List Char) (acc : Nat),
    List.foldl (fun a c => a * 16 + hexCharVal c) acc cs =
      acc * 16 ^ cs.length + List.foldl (fun a c => a * 16 + hexCharVal c) 0 cs := by
  intro cs
  induction cs with
  | nil => intro acc; simp
  | cons c t ih =>
      intro acc
      simp only [List.foldl_cons, List.length_cons]
      rw [ih (acc * 16 + hexCharVal c), ih (0 * 16 + hexCharVal c)]
      ring

theorem byteFold_acc : ∀ (bs : List Nat) (acc : Nat),
    List.foldl (fun a b => a * 256 + b) acc bs =
      acc * 256 ^ bs.length + List.foldl (fun a b => a * 256 + b) 0 bs := by
  intro bs
  induction bs with
  | nil => intro acc; simp
  | cons b t ih =>
      intro acc
      simp only [List.foldl_cons, List.length_cons]
      rw [ih (acc * 256 + b), ih (0 * 256 + b)]
      ring

theorem hexCharVal_hexChar : ∀ n, n < 16 → hexCharVal (hexChar n) = n := by decide

theorem length_bytesToHexChars : ∀ bs : List Nat, (bytesToHexChars bs).length = 2 * bs.length := by
  intro bs
  induction bs with
  | nil => rfl
  | cons b t ih =>
      show (hexChar (b / 16) :: hexChar (b % 16) :: bytesToHexChars t).length = 2 * (t.length + 1)
      simp [ih]; ring

theorem natOfHexChars_bytesToHexChars : ∀ bs : List Nat, (∀ b ∈ bs, b < 256) →
    natOfHexChars (bytesToHexChars bs) = bytesToNatBE bs := by
  intro bs
  induction bs with
  | nil => intro _; rfl
  | cons b t ih =>
      intro h
      have hb : b < 256 := h b (List.mem_cons_self b t)
      have ht : ∀ x ∈ t, x < 256 := fun x hx => h x (List.mem_cons_of_mem _ hx)
      show natOfHexChars (hexChar (b / 16) :: hexChar (b % 16) :: bytesToHexChars t) =
        bytesToNatBE (b :: t)
      unfold natOfHexChars bytesToNatBE
      simp only [List.foldl_cons]
      rw [hexFold_acc (bytesToHexChars t), byteFold_acc t]
      have e1 : hexCharVal (hexChar (b / 16)) = b / 16 :=
        hexCharVal_hexChar _ (Nat.div_lt_of_lt_mul (by omega))
      have e2 : hexCharVal (hexChar (b % 16)) = b % 16 :=
        hexCharVal_hexChar _ (Nat.mod_lt _ (by omega))
      rw [e1, e2, length_bytesToHexChars t]
      have : natOfHexChars (bytesToHexChars t) = bytesToNatBE t := ih ht
      unfold natOfHexChars bytesToNatBE at this
      rw [this]
      have hsplit : (0 * 16 + b / 16) * 16 + b % 16 = b := by omega
      rw [hsplit, pow_mul]
      norm_num

theorem bytesToHexChars_take : ∀ (n : Nat) (bs : List Nat),
    (bytesToHexChars bs).take (2 * n) = bytesToHexChars (bs.take n) := by
  intro n
  induction n with
  | zero => intro bs; simp [bytesToHexChars]
  | succ k ih =>
      intro bs
      cases bs with
      | nil => simp [bytesToHexChars]
      | cons b t =>
          show (hexChar (b / 16) :: hexChar (b % 16) :: bytesToHexChars t).take (2 * (k + 1)) =
            bytesToHexChars (b :: t.take k)
          have h2 : 2 * (k + 1) = 2 * k + 1 + 1 := by ring
          rw [h2, List.take_succ_cons, List.take_succ_cons, ih t]
          rfl

theorem bytesToNatBE_lt : ∀ bs : List Nat, (∀ b ∈ bs, b < 256) →
    bytesToNatBE bs < 256 ^ bs.length := by
  intro bs
  induction bs with
  | nil => intro _; simp [bytesToNatBE]
  | cons b t ih =>
      intro h
      have hb : b < 256 := h b (List.mem_cons_self b t)
      have ht := ih fun x hx => h x (List.mem_cons_of_mem _ hx)
      unfold bytesToNatBE at *
      simp only [List.foldl_cons, List.length_cons]
      rw [byteFold_acc t]
      have : (0 * 256 + b) * 256 ^ t.length + List.foldl (fun a b => a * 256 + b) 0 t <
          (b + 1) * 256 ^ t.length := by nlinarith [pow_pos (show (0:Nat) < 256 by norm_num) t.length]
      calc (0 * 256 + b) * 256 ^ t.length + List.foldl (fun a b => a * 256 + b) 0 t
      _ < (b + 1) * 256 ^ t.length := this
      _ ≤ 256 * 256 ^ t.length := Nat.mul_le_mul_right _ (by omega)
      _ = 256 ^ (t.length + 1) := by ring

theorem wordsBytes_lt : ∀ ws : List Nat,
    ∀ b ∈ List.foldr (fun w acc =>
        (w >>> 24) % 256 :: (w >>> 16) % 256 :: (w >>> 8) % 256 :: w % 256 :: acc) [] ws,
      b < 256 := by
  intro ws
  induction ws with
  | nil => intro b hb; simp at hb
  | cons w t ih =>
      intro b hb
      simp only [List.foldr_cons, List.mem_cons] at hb
      rcases hb with h | h | h | h | h
      · omega
      · omega
      · omega
      · omega
      · exact ih b h

/-- The serialization step of `sha256` produces bytes. -/
theorem sha256_bytes_lt (msg : List Nat) : ∀ b ∈ sha256 msg, b < 256 := fun b hb =>
  wordsBytes_lt _ b hb

/-! ## C2: validation of identifiers -/
/-- C2.  The claim says `extract_eth_features` raises exactly when the
identifier, after lowercasing and stripping an *optional `"0x"` prefix*,
fails `^[0-9a-f]{40}$`.  The code instead removes **every** occurrence of
`"0x"` (eth_utils.py line 16, contradicting its own comment "remove '0x'
prefix if present").  Witnessed here: the identifier made of 20 `'a'`s,
then `"0x"`, then 20 more `'a'`s has no `"0x"` prefix and is 42 characters
long, so per the claim it must fail — but the code accepts it.  The claim's
two sanity examples (`"0x123"` fails, `"0x" + "a"*40` succeeds) do hold. -/
theorem C2_replace_all_code_bug :
    exOk (extract_eth_features "aaaaaaaaaaaaaaaaaaaa0xaaaaaaaaaaaaaaaaaaaa") = true ∧
    specValidHex40 "aaaaaaaaaaaaaaaaaaaa0xaaaaaaaaaaaaaaaaaaaa" = false ∧
    exOk (extract_eth_features "0x123") = false ∧
    exOk (extract_eth_features "0xaaaaaaaaaaaaaaaaaaaaaaaaaaaaaaaaaaaaaaaa") = true := by
  refine ⟨by decide, by decide, by decide, by decide⟩

/-! ## C3: the derived seed -/
/-- C3 (amended).  The seed stored by `extract_eth_features` is the value of
the leading 4 bytes (8 hex characters) of the SHA-256 digest of the
normalized identifier — an unsigned 32-bit integer (the code comments:
"Using only 8 hex chars to stay under 2^32") — not the leading 8 bytes
(16 hex characters) the claim states. -/
theorem C3_seed_is_leading_4_bytes (s : String) (h : exOk (extract_eth_features s) = true) :
    (extract_eth_features s).map EthFeatures.seed =
      .ok (bytesToNatBE ((sha256 (strBytes (normAddr s))).take 4)) ∧
    bytesToNatBE ((sha256 (strBytes (normAddr s))).take 4) < 4294967296 := by
  constructor
  · unfold extract_eth_features at h ⊢
    by_cases hm : matchesHex40 (normAddr s)
    · rw [if_pos hm]
      show Except.ok ((featuresOf (normAddr s)).seed) = _
      have hseed : (featuresOf (normAddr s)).seed =
          natOfHexChars ((bytesToHexChars (sha256 (strBytes (normAddr s)))).take 8) := rfl
      rw [hseed, show (8 : Nat) = 2 * 4 from rfl, bytesToHexChars_take,
        natOfHexChars_bytesToHexChars]
      intro b hb
      exact sha256_bytes_lt _ b (List.take_subset _ _ hb)
    · rw [if_neg hm] at h
      exact absurd h (by simp [exOk])
  · calc bytesToNatBE ((sha256 (strBytes (normAddr s))).take 4)
    _ < 256 ^ ((sha256 (strBytes (normAddr s))).take 4).length :=
        bytesToNatBE_lt _ fun b hb => sha256_bytes_lt _ b (List.take_subset _ _ hb)
    _ ≤ 256 ^ 4 := Nat.pow_le_pow_right (by norm_num) (by simp [List.length_take])
    _ = 4294967296 := by norm_num

/-- Witness for `C3_seed_is_leading_4_bytes` at the concrete valid identifier
`addrBody`. -/
theorem C3_seed_is_leading_4_bytes_witness :
    exOk (extract_eth_features addrBody) = true ∧
    (extract_eth_features addrBody).map EthFeatures.seed =
      .ok (bytesToNatBE ((sha256 (strBytes (normAddr addrBody))).take 4)) :=
  ⟨by decide, (C3_seed_is_leading_4_bytes addrBody (by decide)).1⟩

/-- C3 counterexample: for the valid identifier `addrBody`, the seed actually
stored is `0x05a49e35 = 94674485` (4 digest bytes), while the leading 8
digest bytes (16 hex characters) of the same digest read
`0x05a49e35d388d8d0 = 406623820389603536`; the two differ, refuting the
claim as stated. -/
theorem C3_counterexample :
    (extract_eth_features addrBody).map EthFeatures.seed = .ok 94674485 ∧
    natOfHexChars ((bytesToHexChars (sha256 (strBytes (normAddr addrBody)))).take 16) =
      406623820389603536 ∧
    (94674485 : Nat) ≠ 406623820389603536 := by
  refine ⟨by decide, by decide, by decide⟩

/-! ## C4: one digest for both truncations? -/
/-- C4 counterexample: for the prefixed identifier `addrFull`,
`generate_pixel_inkblot` hashes the lowercased address *without* stripping
the prefix (inkblot.py line 16) while palette selection hashes the stripped
body (inkblot.py line 106); the two digests differ, so the two stages do
not draw on the same digest bytes. -/
theorem C4_counterexample : pixelDigest addrFull ≠ paletteDigest addrFull := by decide

/-- C4 (amended): the seed digest of `generate_pixel_inkblot` and the
palette-selection digest agree exactly when the lowercased identifier
contains no occurrence of `"0x"` (in particular, only for unprefixed
identifiers). -/
theorem C4_digests_agree_iff_no_prefix (address : String)
    (h : contains0x (lowerChars address) = false) :
    pixelDigest address = paletteDigest address := by
  unfold pixelDigest paletteDigest
  rw [replace0x_eq_self _ h]

/-- Witness for `C4_digests_agree_iff_no_prefix` at the unprefixed
identifier `addrBody`. -/
theorem C4_digests_agree_iff_no_prefix_witness :
    contains0x (lowerChars addrBody) = false ∧
    pixelDigest addrBody = paletteDigest addrBody :=
  ⟨by decide, C4_digests_agree_iff_no_prefix addrBody (by decide)⟩

theorem mtInitGenrand_eval : mtInitGenrand 19650218 = mtG := by decide

theorem mtPhase1_S : mtPhase1 seedS (mtKeyLen seedS) mtG = (mtM1S, mtEndI1S, mtEndJ1S) := by decide

theorem mtPhase2_S : mtPhase2 (mtM1S, mtEndI1S) = (mtM2S, mtEndI2S) := by decide

theorem mtInitBySeed_S : mtInitBySeed seedS = mtDS := by
  unfold mtInitBySeed
  rw [mtInitGenrand_eval, mtPhase1_S]
  show (match mtPhase2 (mtM1S, mtEndI1S) with | (mt2, _) => mtSet mt2 0 2147483648) = mtDS
  rw [mtPhase2_S]
  rfl

theorem mtTwist_DS : mtTwist mtDS = mtT1S := by decide

theorem mtPack_T1S : mtPack mtT1S = mtP1S := by decide

theorem mtTwist_T1S : mtTwist mtT1S = mtT2S := by decide

theorem mtPack_T2S : mtPack mtT2S = mtP2S := by decide

theorem mtBlocksAux_two : ∀ st : Nat, mtBlocksAux 2 st =
    mtPack (mtTwist st) + ((mtPack (mtTwist (mtTwist st)) + (0 <<< 19968)) <<< 19968) :=
  fun _ => rfl

theorem mtStream_S : mtStream seedS 2 = mtP1S + (mtP2S <<< 19968) := by
  unfold mtStream
  rw [mtInitBySeed_S, mtBlocksAux_two, mtTwist_DS, mtTwist_T1S, mtPack_T1S, mtPack_T2S,
    Nat.zero_shiftLeft, Nat.add_zero]

theorem mtPhase1_F : mtPhase1 seedF (mtKeyLen seedF) mtG = (mtM1F, mtEndI1F, mtEndJ1F) := by decide

theorem mtPhase2_F : mtPhase2 (mtM1F, mtEndI1F) = (mtM2F, mtEndI2F) := by decide

theorem mtInitBySeed_F : mtInitBySeed seedF = mtDF := by
  unfold mtInitBySeed
  rw [mtInitGenrand_eval, mtPhase1_F]
  show (match mtPhase2 (mtM1F, mtEndI1F) with | (mt2, _) => mtSet mt2 0 2147483648) = mtDF
  rw [mtPhase2_F]
  rfl

theorem mtTwist_DF : mtTwist mtDF = mtT1F := by decide

theorem mtPack_T1F : mtPack mtT1F = mtP1F := by decide

theorem mtBlocksAux_one : ∀ st : Nat, mtBlocksAux 1 st =
    mtPack (mtTwist st) + (0 <<< 19968) :=
  fun _ => rfl

theorem mtStream_F : mtStream seedF 1 = mtP1F := by
  unfold mtStream
  rw [mtInitBySeed_F, mtBlocksAux_one, mtTwist_DF, mtPack_T1F, Nat.zero_shiftLeft, Nat.add_zero]

theorem seedS_eval : pixelSeedInt addrFull + 1337 = seedS := by decide

theorem seedF_eval : pixelSeedInt addrFull = seedF := by decide

/-! ## Generic properties of the splatter loop -/
theorem splatterLoopAux_length (stream splat : Nat) :
    ∀ count idx : Nat, (splatterLoopAux stream splat count idx).length ≤ count := by
  intro count
  induction count with
  | zero => intro idx; simp [splatterLoopAux]
  | succ n ih =>
      intro idx
      simp only [splatterLoopAux]
      cases randbelowIdx stream (pyBitLength' splat) splat 64 idx with
      | mk gx idx2 =>
        cases randbelowIdx stream (pyBitLength' splat) splat 64 idx2 with
        | mk gy idx3 =>
          dsimp only
          split
          · exact Nat.le_succ_of_le (ih idx3)
          · simpa using Nat.succ_le_succ (ih idx3)

theorem splatterLoopAux_band (stream splat : Nat) :
    ∀ count idx : Nat, ∀ c ∈ splatterLoopAux stream splat count idx,
      splat / 4 ≤ ((c.1 : Int) - ((splat / 2 : Nat) : Int)).natAbs := by
  intro count
  induction count with
  | zero => intro idx c hc; simp [splatterLoopAux] at hc
  | succ n ih =>
      intro idx c hc
      simp only [splatterLoopAux] at hc
      revert hc
      cases randbelowIdx stream (pyBitLength' splat) splat 64 idx with
      | mk gx idx2 =>
        cases randbelowIdx stream (pyBitLength' splat) splat 64 idx2 with
        | mk gy idx3 =>
          dsimp only
          intro hc
          by_cases hband : ((gx : Int) - ((splat / 2 : Nat) : Int)).natAbs < splat / 4
          · rw [if_pos hband] at hc
            exact ih idx3 c hc
          · rw [if_neg hband] at hc
            rcases List.mem_cons.mp hc with rfl | hmem
            · exact Nat.le_of_not_lt hband
            · exact ih idx3 c hmem

/-- When the normalized body has at most one `'0'`, no splatter step runs. -/
theorem splatterCells_nil (address : String) (h : zeroCountInk address ≤ 1) :
    splatterCells address = [] := by
  unfold splatterCells
  rw [if_neg (by omega)]

/-- With more than one `'0'`, the splatter step runs with the derived count. -/
theorem splatterCells_run (address : String) (h : 1 < zeroCountInk address) :
    splatterCells address =
      add_grid_splatter (pixelSeedInt address) 24 2 (splatterCount address) := by
  unfold splatterCells
  rw [if_pos h]

/-- When no splatter runs, the ink layer is exactly the mirrored step-1
layer. -/
theorem inkAlpha_no_splatter (address : String) (h : zeroCountInk address ≤ 1) (x y : Nat) :
    inkAlpha address x y = mirrorPaste (step1Alpha address) 1024 x y := by
  unfold inkAlpha
  rw [splatterCells_nil address h]
  rfl

/-- The paste of step 2 produces an exactly mirror-symmetric layer for
even canvas sizes, whatever the pre-mirror layer holds. -/
theorem mirrorPaste_symm (pre : Nat → Nat → Nat) (size x y : Nat) (he : size % 2 = 0)
    (hx : x < size) : mirrorPaste pre size x y = mirrorPaste pre size (size - 1 - x) y := by
  unfold mirrorPaste
  rcases Nat.lt_or_ge x (size / 2) with h | h
  · rw [if_neg (by omega), if_pos (by omega)]
    congr 1
    omega
  · rw [if_pos (by omega), if_neg (by omega)]

/-! ## C5: splatter count -/
/-- C5 (amended).  For `zero_count ≤ 1` no splatter is added.  For
`zero_count > 1` the splatter step is *attempted* `⌊((zero_count-1)/9)·400⌋`
times, but attempts in the central column band are skipped (inkblot.py
line 91), so the number of marks actually drawn is at most that count —
not equal to it in general. -/
theorem C5_splatter_count (address : String) :
    (zeroCountInk address ≤ 1 → splatterCells address = []) ∧
    (1 < zeroCountInk address →
      splatterCells address =
        add_grid_splatter (pixelSeedInt address) 24 2 (((zeroCountInk address - 1) * 400) / 9) ∧
      (splatterCells address).length ≤ ((zeroCountInk address - 1) * 400) / 9) := by
  constructor
  · exact splatterCells_nil address
  · intro h
    refine ⟨splatterCells_run address h, ?_⟩
    rw [splatterCells_run address h]
    exact splatterLoopAux_length _ _ _ _

/-- Witness for `C5_splatter_count`: the all-`'f'` identifier has no `'0'`
and gets no splatter; `addrFull` has five `'0'`s and draws at most
`⌊(4/9)·400⌋ = 177` marks. -/
theorem C5_splatter_count_witness :
    (zeroCountInk "ffff" ≤ 1 ∧ splatterCells "ffff" = []) ∧
    (1 < zeroCountInk addrFull ∧
      (splatterCells addrFull).length ≤ ((zeroCountInk addrFull - 1) * 400) / 9) :=
  ⟨⟨by decide, (C5_splatter_count "ffff").1 (by decide)⟩,
   ⟨by decide, ((C5_splatter_count addrFull).2 (by decide)).2⟩⟩

/-- C5 counterexample: for `addrFull` (five `'0'`s in the body) the claim
predicts `⌊(4/9)·400⌋ = 177` splatter marks, but only 89 draws fall outside
the skipped central band, so 89 rectangles are drawn. -/
theorem C5_counterexample :
    (splatterCells addrFull).length = 89 ∧ splatterCount addrFull = 177 ∧ (89 : Nat) ≠ 177 := by
  refine ⟨?_, by decide, by decide⟩
  unfold splatterCells add_grid_splatter
  rw [seedS_eval, mtStream_S, show splatterCount addrFull = 177 from by decide,
    if_pos (show 1 < zeroCountInk addrFull by decide)]
  decide

/-! ## C10: the central band never receives splatter -/
/-- C10.  Every cell drawn by `add_grid_splatter` has a column at distance
at least `(grid_size*scale)/4` from the center column `(grid_size*scale)/2`
(the skipped band `abs(gx - splat//2) < splat//4` spans about half the
image width), and at most `count` marks are drawn.  The hypothesis
`0 < grid_size * scale` excludes the degenerate grid on which Python's
`randint(0, -1)` raises. -/
theorem C10_splatter_central_band (seed grid_size scale count : Nat)
    (_h : 0 < grid_size * scale) :
    (add_grid_splatter seed grid_size scale count).length ≤ count ∧
    ∀ c ∈ add_grid_splatter seed grid_size scale count,
      (grid_size * scale) / 4 ≤ ((c.1 : Int) - (((grid_size * scale) / 2 : Nat) : Int)).natAbs :=
  ⟨splatterLoopAux_length _ _ _ _, splatterLoopAux_band _ _ _ _⟩

/-- Witness for `C10_splatter_central_band` at seed 7, the default 24-cell
grid, scale 2, count 3. -/
theorem C10_splatter_central_band_witness :
    0 < 24 * 2 ∧
    ((add_grid_splatter 7 24 2 3).length ≤ 3 ∧
     ∀ c ∈ add_grid_splatter 7 24 2 3,
       (24 * 2) / 4 ≤ ((c.1 : Int) - (((24 * 2) / 2 : Nat) : Int)).natAbs) :=
  ⟨by norm_num, C10_splatter_central_band 7 24 2 3 (by norm_num)⟩

/-! ## Bounds for the noise field (C6) -/
theorem smoothstep_nonneg (t : ℝ) (h0 : 0 ≤ t) (h1 : t ≤ 1) : 0 ≤ t * t * (3 - 2 * t) := by
  have h2 : 0 ≤ 3 - 2 * t := by linarith
  positivity

theorem smoothstep_le_one (t : ℝ) (h0 : 0 ≤ t) (h1 : t ≤ 1) : t * t * (3 - 2 * t) ≤ 1 := by
  nlinarith [sq_nonneg (1 - t), mul_nonneg (mul_nonneg (sub_nonneg.2 h1) (sub_nonneg.2 h1)) h0]

theorem bracket_le (t : ℝ) (h0 : 0 ≤ t) (h1 : t ≤ 1) :
    (1 - t * t * (3 - 2 * t)) * t + (t * t * (3 - 2 * t)) * (1 - t) ≤ 1 / 2 := by
  nlinarith [sq_nonneg (2 * t - 1),
    mul_nonneg (sq_nonneg (2 * t - 1)) (mul_nonneg h0 (sub_nonneg.2 h1))]

theorem unit_abs_le_one (a b : ℝ) (h : a ^ 2 + b ^ 2 = 1) : |a| ≤ 1 := by
  nlinarith [sq_nonneg b, sq_abs a, abs_nonneg a]

theorem unit_dot_bound (a b u v : ℝ) (h : a ^ 2 + b ^ 2 = 1) :
    |a * u + b * v| ≤ |u| + |v| := by
  have ha : |a| ≤ 1 := unit_abs_le_one a b h
  have hb : |b| ≤ 1 := unit_abs_le_one b a (by linarith)
  calc |a * u + b * v| ≤ |a * u| + |b * v| := abs_add _ _
  _ = |a| * |u| + |b| * |v| := by rw [abs_mul, abs_mul]
  _ ≤ 1 * |u| + 1 * |v| := by
      apply add_le_add
      · exact mul_le_mul_of_nonneg_right ha (abs_nonneg u)
      · exact mul_le_mul_of_nonneg_right hb (abs_nonneg v)
  _ = |u| + |v| := by ring

theorem interpolate_abs_le (a b t A B : ℝ) (h0 : 0 ≤ t) (h1 : t ≤ 1)
    (ha : |a| ≤ A) (hb : |b| ≤ B) :
    |interpolate a b t| ≤ (1 - t * t * (3 - 2 * t)) * A + (t * t * (3 - 2 * t)) * B := by
  have hs0 := smoothstep_nonneg t h0 h1
  have hs1 := smoothstep_le_one t h0 h1
  have hrw : interpolate a b t =
      (1 - t * t * (3 - 2 * t)) * a + (t * t * (3 - 2 * t)) * b := by
    unfold interpolate; ring
  rw [hrw]
  calc |(1 - t * t * (3 - 2 * t)) * a + (t * t * (3 - 2 * t)) * b|
  _ ≤ |(1 - t * t * (3 - 2 * t)) * a| + |(t * t * (3 - 2 * t)) * b| := abs_add _ _
  _ = (1 - t * t * (3 - 2 * t)) * |a| + (t * t * (3 - 2 * t)) * |b| := by
      rw [abs_mul, abs_mul, abs_of_nonneg (by linarith), abs_of_nonneg hs0]
  _ ≤ (1 - t * t * (3 - 2 * t)) * A + (t * t * (3 - 2 * t)) * B := by
      apply add_le_add
      · exact mul_le_mul_of_nonneg_left ha (by linarith)
      · exact mul_le_mul_of_nonneg_left hb hs0

theorem octaveAt_abs_le (grads : ℤ → ℤ → ℝ × ℝ) (s0 s1 : ℕ) (freq : ℝ) (y x : ℕ)
    (hunit : ∀ i j, (grads i j).1 ^ 2 + (grads i j).2 ^ 2 = 1) :
    |octaveAt grads s0 s1 freq y x| ≤ 1 := by
  unfold octaveAt
  dsimp only
  split
  case isFalse => simp
  case isTrue h =>
    set dy := Int.fract ((y : ℝ) * freq) with hdy
    set dx := Int.fract ((x : ℝ) * freq) with hdx
    have hdx0 : 0 ≤ dx := Int.fract_nonneg _
    have hdx1 : dx ≤ 1 := le_of_lt (Int.fract_lt_one _)
    have hdy0 : 0 ≤ dy := Int.fract_nonneg _
    have hdy1 : dy ≤ 1 := le_of_lt (Int.fract_lt_one _)
    have hxm : |dx - 1| = 1 - dx := by rw [abs_of_nonpos (by linarith)]; ring
    have hym : |dy - 1| = 1 - dy := by rw [abs_of_nonpos (by linarith)]; ring
    have e00 : |(grads ⌊(y : ℝ) * freq⌋ ⌊(x : ℝ) * freq⌋).1 * dx +
        (grads ⌊(y : ℝ) * freq⌋ ⌊(x : ℝ) * freq⌋).2 * dy| ≤ dx + dy := by
      calc _ ≤ |dx| + |dy| := unit_dot_bound _ _ dx dy (hunit _ _)
      _ = dx + dy := by rw [abs_of_nonneg hdx0, abs_of_nonneg hdy0]
    have e01 : |(grads ⌊(y : ℝ) * freq⌋ (⌊(x : ℝ) * freq⌋ + 1)).1 * (dx - 1) +
        (grads ⌊(y : ℝ) * freq⌋ (⌊(x : ℝ) * freq⌋ + 1)).2 * dy| ≤ (1 - dx) + dy := by
      calc _ ≤ |dx - 1| + |dy| := unit_dot_bound _ _ (dx - 1) dy (hunit _ _)
      _ = (1 - dx) + dy := by rw [hxm, abs_of_nonneg hdy0]
    have e10 : |(grads (⌊(y : ℝ) * freq⌋ + 1) ⌊(x : ℝ) * freq⌋).1 * dx +
        (grads (⌊(y : ℝ) * freq⌋ + 1) ⌊(x : ℝ) * freq⌋).2 * (dy - 1)| ≤ dx + (1 - dy) := by
      calc _ ≤ |dx| + |dy - 1| := unit_dot_bound _ _ dx (dy - 1) (hunit _ _)
      _ = dx + (1 - dy) := by rw [abs_of_nonneg hdx0, hym]
    have e11 : |(grads (⌊(y : ℝ) * freq⌋ + 1) (⌊(x : ℝ) * freq⌋ + 1)).1 * (dx - 1) +
        (grads (⌊(y : ℝ) * freq⌋ + 1) (⌊(x : ℝ) * freq⌋ + 1)).2 * (dy - 1)| ≤
        (1 - dx) + (1 - dy) := by
      calc _ ≤ |dx - 1| + |dy - 1| := unit_dot_bound _ _ (dx - 1) (dy - 1) (hunit _ _)
      _ = (1 - dx) + (1 - dy) := by rw [hxm, hym]
    have hA := interpolate_abs_le _ _ dx (dx + dy) ((1 - dx) + dy) hdx0 hdx1 e00 e01
    have hB := interpolate_abs_le _ _ dx (dx + (1 - dy)) ((1 - dx) + (1 - dy)) hdx0 hdx1 e10 e11
    have houter := interpolate_abs_le _ _ dy
      ((1 - dx * dx * (3 - 2 * dx)) * (dx + dy) + (dx * dx * (3 - 2 * dx)) * ((1 - dx) + dy))
      ((1 - dx * dx * (3 - 2 * dx)) * (dx + (1 - dy)) +
        (dx * dx * (3 - 2 * dx)) * ((1 - dx) + (1 - dy)))
      hdy0 hdy1 hA hB
    have hKx := bracket_le dx hdx0 hdx1
    have hKy := bracket_le dy hdy0 hdy1
    calc _ ≤ _ := houter
    _ = ((1 - dx * dx * (3 - 2 * dx)) * dx + (dx * dx * (3 - 2 * dx)) * (1 - dx)) +
        ((1 - dy * dy * (3 - 2 * dy)) * dy + (dy * dy * (3 - 2 * dy)) * (1 - dy)) := by ring
    _ ≤ 1 / 2 + 1 / 2 := add_le_add hKx hKy
    _ = 1 := by norm_num

/-- Invariant of the octave loop: a nonnegative amplitude and an octave sum
bounded by the accumulated amplitude total are preserved, and the total
never decreases. -/
theorem perlinFold_bound (grads : ℕ → ℤ → ℤ → ℝ × ℝ) (s0 s1 : ℕ)
    (persistence lacunarity : ℝ) (y x : ℕ)
    (hunit : ∀ o i j, ((grads o) i j).1 ^ 2 + ((grads o) i j).2 ^ 2 = 1)
    (hp : 0 ≤ persistence) :
    ∀ (os : List ℕ) (acc maxv amp freq : ℝ), 0 ≤ amp → |acc| ≤ maxv →
      0 ≤ (os.foldl (perlinStep grads s0 s1 persistence lacunarity y x)
            (acc, maxv, amp, freq)).2.2.1 ∧
      |(os.foldl (perlinStep grads s0 s1 persistence lacunarity y x)
            (acc, maxv, amp, freq)).1| ≤
        (os.foldl (perlinStep grads s0 s1 persistence lacunarity y x)
            (acc, maxv, amp, freq)).2.1 ∧
      maxv ≤ (os.foldl (perlinStep grads s0 s1 persistence lacunarity y x)
            (acc, maxv, amp, freq)).2.1 := by
  intro os
  induction os with
  | nil => intro acc maxv amp freq h1 h2; exact ⟨h1, h2, le_refl _⟩
  | cons o t ih =>
      intro acc maxv amp freq h1 h2
      simp only [List.foldl_cons, perlinStep]
      have hv := octaveAt_abs_le (grads o) s0 s1 freq y x (hunit o)
      have h1' : 0 ≤ amp * persistence := mul_nonneg h1 hp
      have h2' : |acc + amp * octaveAt (grads o) s0 s1 freq y x| ≤ maxv + amp := by
        calc |acc + amp * octaveAt (grads o) s0 s1 freq y x|
        _ ≤ |acc| + |amp * octaveAt (grads o) s0 s1 freq y x| := abs_add _ _
        _ = |acc| + amp * |octaveAt (grads o) s0 s1 freq y x| := by
            rw [abs_mul, abs_of_nonneg h1]
        _ ≤ maxv + amp * 1 := add_le_add h2 (mul_le_mul_of_nonneg_left hv h1)
        _ = maxv + amp := by ring
      have hrest := ih _ _ _ (freq * lacunarity) h1' h2'
      refine ⟨hrest.1, hrest.2.1, ?_⟩
      have : maxv ≤ maxv + amp := by linarith
      exact le_trans this hrest.2.2

theorem octaveAt_cex0 : octaveAt (cexGrads 0) 2 2 (1 / 2) 1 1 = 7 / 10 := by
  unfold octaveAt cexGrads pyInt interpolate
  have h1 : ((1 : ℕ) : ℝ) * (1 / 2) = 1 / 2 := by norm_num
  have hfl : ⌊((1 : ℕ) : ℝ) * (1 / 2 : ℝ)⌋ = 0 := by
    rw [h1]; rw [Int.floor_eq_zero_iff]; constructor <;> norm_num
  have hfr : Int.fract (((1 : ℕ) : ℝ) * (1 / 2 : ℝ)) = 1 / 2 := by
    rw [h1]; rw [Int.fract_eq_self]; constructor <;> norm_num
  have h2 : ((2 : ℕ) : ℝ) * (1 / 2) = 1 := by norm_num
  have hfl2 : ⌊((2 : ℕ) : ℝ) * (1 / 2 : ℝ)⌋ = 1 := by rw [h2]; norm_num
  rw [hfl, hfr, if_pos (by rw [h2]; norm_num)]
  norm_num

theorem octaveAt_cex1 : octaveAt (cexGrads 1) 2 2 (1 / 2) 1 1 = -(7 / 10) := by
  unfold octaveAt cexGrads pyInt interpolate
  have h1 : ((1 : ℕ) : ℝ) * (1 / 2) = 1 / 2 := by norm_num
  have hfl : ⌊((1 : ℕ) : ℝ) * (1 / 2 : ℝ)⌋ = 0 := by
    rw [h1]; rw [Int.floor_eq_zero_iff]; constructor <;> norm_num
  have hfr : Int.fract (((1 : ℕ) : ℝ) * (1 / 2 : ℝ)) = 1 / 2 := by
    rw [h1]; rw [Int.fract_eq_self]; constructor <;> norm_num
  have h2 : ((2 : ℕ) : ℝ) * (1 / 2) = 1 := by norm_num
  rw [hfl, hfr, if_pos (by rw [h2]; norm_num)]
  norm_num

/-- C6 (amended).  For unit gradient lattices, at least one octave and
*nonnegative* persistence, every sample of `generate_perlin_noise` lies in
`[0, 1]`, with or without the vertical fix, for every shape, scale,
lacunarity and sample position.  (For negative persistence the claim fails;
see the counterexample.) -/
theorem C6_noise_in_unit_interval (grads : ℕ → ℤ → ℤ → ℝ × ℝ) (shape0 shape1 : ℕ)
    (scale : ℝ) (octaves : ℕ) (persistence lacunarity : ℝ) (vfix : Bool) (y x : ℕ)
    (hunit : ∀ o i j, (grads o i j).1 ^ 2 + (grads o i j).2 ^ 2 = 1)
    (hoct : 1 ≤ octaves) (hp : 0 ≤ persistence) :
    0 ≤ generate_perlin_noise grads shape0 shape1 scale octaves persistence lacunarity vfix y x ∧
    generate_perlin_noise grads shape0 shape1 scale octaves persistence lacunarity vfix y x ≤ 1 := by
  obtain ⟨n, rfl⟩ : ∃ n, octaves = n + 1 := ⟨octaves - 1, by omega⟩
  rcases hA : perlinAcc grads shape0 shape1 scale persistence lacunarity (n + 1) y x with
    ⟨acc, maxv, amp, freq⟩
  have hb : |acc| ≤ maxv ∧ 1 ≤ maxv := by
    have hv0 := octaveAt_abs_le (grads 0) shape0 shape1 scale y x (hunit 0)
    have hstart1 : (0 : ℝ) ≤ 1 * persistence := by linarith
    have hstart2 : |(0 : ℝ) + 1 * octaveAt (grads 0) shape0 shape1 scale y x| ≤ 0 + 1 := by
      simpa using hv0
    have hfold := perlinFold_bound grads shape0 shape1 persistence lacunarity y x hunit hp
      (List.map Nat.succ (List.range n)) _ _ _ (scale * lacunarity) hstart1 hstart2
    rw [show (List.map Nat.succ (List.range n)).foldl
          (perlinStep grads shape0 shape1 persistence lacunarity y x)
          (0 + 1 * octaveAt (grads 0) shape0 shape1 scale y x, 0 + 1, 1 * persistence,
            scale * lacunarity) =
        perlinAcc grads shape0 shape1 scale persistence lacunarity (n + 1) y x from ?_] at hfold
    · rw [hA] at hfold
      exact ⟨hfold.2.1, by simpa using hfold.2.2⟩
    · unfold perlinAcc
      rw [List.range_succ_eq_map]
      simp only [List.foldl_cons, perlinStep]
  have hmv : (0 : ℝ) < maxv := by linarith [hb.2]
  have hdivle : acc / maxv ≤ 1 := (div_le_one hmv).mpr (le_of_abs_le hb.1)
  have hdivge : -1 ≤ acc / maxv := by
    rw [le_div_iff₀ hmv]
    have := neg_abs_le acc
    linarith [hb.1]
  have hv0 : 0 ≤ (acc / maxv + 1) / 2 := by linarith
  have hv1 : (acc / maxv + 1) / 2 ≤ 1 := by linarith
  unfold generate_perlin_noise
  rw [hA]
  dsimp only
  split
  case isFalse => exact ⟨hv0, hv1⟩
  case isTrue hcond =>
    obtain ⟨hvf, hylo, hyhi, hbpos⟩ := hcond
    have hble : shape0 / 10 ≤ shape0 := Nat.div_le_self _ _
    have hcast : ((shape0 - shape0 / 10 : ℕ) : ℝ) = (shape0 : ℝ) - (shape0 / 10 : ℕ) := by
      push_cast [Nat.cast_sub hble]
      ring
    have hbr : (0 : ℝ) < ((shape0 / 10 : ℕ) : ℝ) := by exact_mod_cast hbpos
    have hnum0 : (0 : ℝ) ≤ (y : ℝ) - ((shape0 - shape0 / 10 : ℕ) : ℝ) := by
      have : ((shape0 - shape0 / 10 : ℕ) : ℝ) ≤ (y : ℝ) := by exact_mod_cast hylo
      linarith
    have hnum1 : (y : ℝ) - ((shape0 - shape0 / 10 : ℕ) : ℝ) < ((shape0 / 10 : ℕ) : ℝ) := by
      have hy : (y : ℝ) < (shape0 : ℝ) := by exact_mod_cast hyhi
      rw [hcast]
      linarith
    have hf0 : 0 ≤ vfixFactor shape0 y := by
      unfold vfixFactor
      have : ((y : ℝ) - ((shape0 - shape0 / 10 : ℕ) : ℝ)) / (2 * ((shape0 / 10 : ℕ) : ℝ)) ≤ 1 := by
        rw [div_le_one (by linarith)]
        linarith
      linarith
    have hf1 : vfixFactor shape0 y ≤ 1 := by
      unfold vfixFactor
      have : 0 ≤ ((y : ℝ) - ((shape0 - shape0 / 10 : ℕ) : ℝ)) / (2 * ((shape0 / 10 : ℕ) : ℝ)) :=
        div_nonneg hnum0 (by linarith)
      linarith
    have habs : |((acc / maxv + 1) / 2 - 1 / 2) * vfixFactor shape0 y| ≤ 1 / 2 := by
      rw [abs_mul]
      calc |(acc / maxv + 1) / 2 - 1 / 2| * |vfixFactor shape0 y|
      _ ≤ (1 / 2) * 1 := by
          apply mul_le_mul
          · rw [abs_le]; constructor <;> linarith
          · rw [abs_le]; constructor <;> linarith
          · exact abs_nonneg _
          · norm_num
      _ = 1 / 2 := by ring
    rw [abs_le] at habs
    constructor <;> linarith [habs.1, habs.2]

/-- Witness for `C6_noise_in_unit_interval` at the constant unit lattice,
shape 8 x 8, 6 octaves, persistence 1/2, lacunarity 2, vertical fix on. -/
theorem C6_noise_in_unit_interval_witness :
    (∀ o i j, (constGrads o i j).1 ^ 2 + (constGrads o i j).2 ^ 2 = 1) ∧
    ((1 : ℕ) ≤ 6 ∧ (0 : ℝ) ≤ 1 / 2) ∧
    (0 ≤ generate_perlin_noise constGrads 8 8 (1 / 100) 6 (1 / 2) 2 true 3 4 ∧
     generate_perlin_noise constGrads 8 8 (1 / 100) 6 (1 / 2) 2 true 3 4 ≤ 1) :=
  ⟨fun o i j => by simp [constGrads], ⟨by norm_num, by norm_num⟩,
    C6_noise_in_unit_interval constGrads 8 8 (1 / 100) 6 (1 / 2) 2 true 3 4
      (fun o i j => by simp [constGrads]) (by norm_num) (by norm_num)⟩

/-- C6 counterexample assembly: with two octaves, `persistence = -2` and
`lacunarity = 1`, the amplitude total is `1 + (-2) = -1` and the sample
value leaves `[0, 1]`. -/
theorem C6_counterexample :
    generate_perlin_noise cexGrads 2 2 (1 / 2) 2 (-2) 1 true 1 1 = -(11 / 20) ∧
    ¬ (0 ≤ -(11 / 20 : ℝ)) := by
  constructor
  · unfold generate_perlin_noise perlinAcc
    rw [show List.range 2 = [0, 1] from by decide]
    simp only [List.foldl_cons, List.foldl_nil, perlinStep]
    rw [octaveAt_cex0, show (1 / 2 * 1 : ℝ) = 1 / 2 from by norm_num, octaveAt_cex1]
    norm_num
  · norm_num

/-- C7.  The vertical fix leaves every row above the bottom `int(0.1*h)`
rows unchanged; inside the band it replaces `v` by
`0.5 + (v - 0.5) * factor` with `factor = 1 - (y - (h-b))/(2b)`, the linear
ramp worth 1 at the top row of the band, decreasing by `1/(2b)` per row,
and reaching exactly 1/2 at the band's lower edge `y = h`. -/
theorem C7_vertical_fix (grads : ℕ → ℤ → ℤ → ℝ × ℝ) (shape0 shape1 : ℕ) (scale : ℝ)
    (octaves : ℕ) (persistence lacunarity : ℝ) (x : ℕ) (hb : 0 < shape0 / 10) :
    (∀ y, y < shape0 - shape0 / 10 →
      generate_perlin_noise grads shape0 shape1 scale octaves persistence lacunarity true y x =
      generate_perlin_noise grads shape0 shape1 scale octaves persistence lacunarity false y x) ∧
    (∀ y, shape0 - shape0 / 10 ≤ y → y < shape0 →
      generate_perlin_noise grads shape0 shape1 scale octaves persistence lacunarity true y x =
      1 / 2 + (generate_perlin_noise grads shape0 shape1 scale octaves persistence
        lacunarity false y x - 1 / 2) * vfixFactor shape0 y) ∧
    vfixFactor shape0 (shape0 - shape0 / 10) = 1 ∧
    vfixFactor shape0 shape0 = 1 / 2 ∧
    (∀ z : ℕ, vfixFactor shape0 (z + 1) - vfixFactor shape0 z =
      -(1 / (2 * ((shape0 / 10 : ℕ) : ℝ)))) := by
  have hble : shape0 / 10 ≤ shape0 := Nat.div_le_self _ _
  have hbr : (0 : ℝ) < ((shape0 / 10 : ℕ) : ℝ) := by exact_mod_cast hb
  refine ⟨?_, ?_, ?_, ?_, ?_⟩
  · intro y hy
    unfold generate_perlin_noise
    rcases perlinAcc grads shape0 shape1 scale persistence lacunarity octaves y x with
      ⟨acc, maxv, amp, freq⟩
    dsimp only
    rw [if_neg (by simp; omega), if_neg (by simp)]
  · intro y hy1 hy2
    unfold generate_perlin_noise
    rcases perlinAcc grads shape0 shape1 scale persistence lacunarity octaves y x with
      ⟨acc, maxv, amp, freq⟩
    dsimp only
    rw [if_pos ⟨rfl, hy1, hy2, hb⟩, if_neg (by simp)]
  · unfold vfixFactor
    rw [sub_self, zero_div]
    norm_num
  · unfold vfixFactor
    rw [Nat.cast_sub hble]
    have : (shape0 : ℝ) - ((shape0 : ℝ) - ((shape0 / 10 : ℕ) : ℝ)) = ((shape0 / 10 : ℕ) : ℝ) := by
      ring
    rw [this]
    field_simp
    ring
  · intro z
    unfold vfixFactor
    push_cast
    field_simp

/-- Witness for `C7_vertical_fix` at shape 20 x 20 (band of 2 rows), row 19. -/
theorem C7_vertical_fix_witness :
    0 < 20 / 10 ∧
    (generate_perlin_noise constGrads 20 20 (1 / 100) 6 (1 / 2) 2 true 19 0 =
      1 / 2 + (generate_perlin_noise constGrads 20 20 (1 / 100) 6 (1 / 2) 2 false 19 0 - 1 / 2) *
        vfixFactor 20 19) ∧
    vfixFactor 20 (20 - 20 / 10) = 1 ∧ vfixFactor 20 20 = 1 / 2 :=
  ⟨by norm_num,
   (C7_vertical_fix constGrads 20 20 (1 / 100) 6 (1 / 2) 2 0 (by norm_num)).2.1 19
     (by norm_num) (by norm_num),
   (C7_vertical_fix constGrads 20 20 (1 / 100) 6 (1 / 2) 2 0 (by norm_num)).2.2.1,
   (C7_vertical_fix constGrads 20 20 (1 / 100) 6 (1 / 2) 2 0 (by norm_num)).2.2.2.1⟩

/-- C8.  A fully transparent raster is returned unchanged: the emptiness
check fires before any bounding-box or scale arithmetic, so no division by
zero and no error occurs. -/
theorem C8_transparent_returned_unchanged
    (resizePaste : ℤ → ℤ → ℤ → ℤ → (ℕ → ℕ → Pix)) (img : ℕ → ℕ → Pix) (size : ℕ)
    (whitespace_margin : ℝ)
    (h : ∀ y x, y < size → x < size → pixAlpha (img y x) = 0) :
    center_and_scale_inkblot resizePaste img size whitespace_margin = img := by
  unfold center_and_scale_inkblot
  rw [if_pos]
  left
  intro hcontra
  rw [List.any_eq_true] at hcontra
  obtain ⟨y, hy, hrow⟩ := hcontra
  rw [List.mem_range] at hy
  rw [rowAny, List.any_eq_true] at hrow
  obtain ⟨x, hx, hpos⟩ := hrow
  rw [List.mem_range] at hx
  rw [decide_eq_true_iff, h y x hy hx] at hpos
  exact absurd hpos (by norm_num)

/-- Witness for `C8_transparent_returned_unchanged` on a 2x2 transparent
canvas (with an oracle that would return a sentinel pixel if called). -/
theorem C8_transparent_returned_unchanged_witness :
    (∀ y x : ℕ, y < 2 → x < 2 →
      pixAlpha ((fun _ _ => ((0, 0, 0, 0) : Pix)) y x) = 0) ∧
    center_and_scale_inkblot (fun _ _ _ _ _ _ => ((9, 9, 9, 9) : Pix))
      (fun _ _ => ((0, 0, 0, 0) : Pix)) 2 (3 / 20) = fun _ _ => ((0, 0, 0, 0) : Pix) :=
  ⟨fun _ _ _ _ => rfl,
   C8_transparent_returned_unchanged _ _ 2 (3 / 20) (fun _ _ _ _ => rfl)⟩

theorem foldl_preserves {α β : Type} (P : α → Prop) (f : α → β → α)
    (h : ∀ a b, P a → P (f a b)) : ∀ (l : List β) (a : α), P a → P (l.foldl f a) := by
  intro l
  induction l with
  | nil => intro a ha; exact ha
  | cons b t ih => intro a ha; exact ih _ (h a b ha)

theorem setPair_symm (size : ℕ) (img : ℕ → ℕ → Pix)
    (hP : ∀ a b, a < size → img a b = img (size - 1 - a) b)
    (x0 y0 : ℕ) (hx0 : x0 < size) (p : Pix) :
    ∀ a b, a < size →
      setPix (setPix img x0 y0 p) (size - x0 - 1) y0 p a b =
      setPix (setPix img x0 y0 p) (size - x0 - 1) y0 p (size - 1 - a) b := by
  intro a b ha
  unfold setPix
  split_ifs <;> first | rfl | (exact hP a b ha) | (exfalso; omega)

theorem noiseImage_symm (size : ℕ) (noise : ℕ → ℕ → ℝ) (bl wl th : ℝ) :
    ∀ x y, x < size →
      noiseImage size noise bl wl th x y = noiseImage size noise bl wl th (size - 1 - x) y := by
  have key : ∀ a b, a < size →
      noiseImage size noise bl wl th a b = noiseImage size noise bl wl th (size - 1 - a) b := by
    unfold noiseImage
    have houter := foldl_preserves
      (fun img : ℕ → ℕ → Pix => ∀ a b, a < size → img a b = img (size - 1 - a) b)
      (fun img y => (List.range size).foldl (fun img x =>
        if x < size / 2 then
          setPix (setPix img x y (noisePixelValue bl wl th (noise y x)))
            (size - x - 1) y (noisePixelValue bl wl th (noise y x))
        else img) img)
      ?_ (List.range size) (fun _ _ => ((0, 0, 0, 0) : Pix)) ?_
    · exact houter
    · intro img y himg
      apply foldl_preserves
        (fun img : ℕ → ℕ → Pix => ∀ a b, a < size → img a b = img (size - 1 - a) b)
      · intro im x him
        split
        case isTrue hx => exact setPair_symm size im him x y (by omega) _
        case isFalse => exact him
      · exact himg
    · intro a b _
      rfl
  exact key

/-- C1 (amended).  The noise renderer's raster is exactly mirror-symmetric
about the vertical centerline for every size and noise field, and the pixel
inkblot's ink layer is exactly symmetric whenever no splatter runs
(`zero_count ≤ 1`; the canvas size 1024 is even).  When the conditional
splatter step does run, its marks are drawn after the mirror step and are
not mirrored themselves, and exact symmetry fails (see
`C1_counterexample`). -/
theorem C1_mirror_symmetry :
    (∀ (size : ℕ) (noise : ℕ → ℕ → ℝ) (bl wl th : ℝ) (x y : ℕ), x < size →
      noiseImage size noise bl wl th x y = noiseImage size noise bl wl th (size - 1 - x) y) ∧
    (∀ (address : String) (x y : ℕ), zeroCountInk address ≤ 1 → x < 1024 →
      inkAlpha address x y = inkAlpha address (1024 - 1 - x) y) := by
  constructor
  · intro size noise bl wl th x y hx
    exact noiseImage_symm size noise bl wl th x y hx
  · intro address x y hz hx
    rw [inkAlpha_no_splatter address hz, inkAlpha_no_splatter address hz]
    exact mirrorPaste_symm (step1Alpha address) 1024 x y (by norm_num) hx

/-- Witness for `C1_mirror_symmetry`: the noise raster at size 4, and the
ink layer of the zero-free identifier `"ffff"`. -/
theorem C1_mirror_symmetry_witness :
    ((1 : ℕ) < 4 ∧
      noiseImage 4 (fun _ _ => 0) 0 250 (1 / 2) 1 0 =
        noiseImage 4 (fun _ _ => 0) 0 250 (1 / 2) (4 - 1 - 1) 0) ∧
    (zeroCountInk "ffff" ≤ 1 ∧ (30 : ℕ) < 1024 ∧
      inkAlpha "ffff" 30 10 = inkAlpha "ffff" (1024 - 1 - 30) 10) :=
  ⟨⟨by norm_num, C1_mirror_symmetry.1 4 (fun _ _ => 0) 0 250 (1 / 2) 1 0 (by norm_num)⟩,
   ⟨by decide, by norm_num, C1_mirror_symmetry.2 "ffff" 30 10 (by decide) (by norm_num)⟩⟩

/-- No cell of `L`, drawn as an inclusive rectangle on the 48-cell grid,
covers any pixel of the box `[lox, hix] x [loy, hiy]`, provided every
cell's rectangle misses the box. -/
theorem splatter_miss (L : List (ℕ × ℕ)) (x y lox hix loy hiy : ℕ)
    (hx1 : lox ≤ x) (hx2 : x ≤ hix) (hy1 : loy ≤ y) (hy2 : y ≤ hiy)
    (h : L.all (fun c =>
      decide ((c.1 + 1) * 1024 / 48 < lox ∨ hix < c.1 * 1024 / 48 ∨
        (c.2 + 1) * 1024 / 48 < loy ∨ hiy < c.2 * 1024 / 48)) = true) :
    L.any (fun c => coversCell 1024 48 c.1 c.2 x y) = false := by
  induction L with
  | nil => rfl
  | cons c t ih =>
    rw [List.all_cons, Bool.and_eq_true] at h
    rw [List.any_cons, ih h.2, Bool.or_false]
    apply Bool.eq_false_iff.mpr
    intro hcov
    have h1 := of_decide_eq_true h.1
    simp only [coversCell, Bool.and_eq_true, decide_eq_true_eq] at hcov
    rcases h1 with h' | h' | h' | h' <;> omega

/-- No step-1 rectangle covers any pixel of the box
`[lox, hix] x [loy, hiy]`, provided every cell either fails its fill draw
or has its rectangle miss the box. -/
theorem step1_miss (stream : Nat) (x y lox hix loy hiy : ℕ)
    (hx1 : lox ≤ x) (hx2 : x ≤ hix) (hy1 : loy ≤ y) (hy2 : y ≤ hiy)
    (h : step1Cells.all (fun c =>
      decide (((6 + c.1).toNat + 1) * 1024 / 24 < lox ∨
        hix < (6 + c.1).toNat * 1024 / 24 ∨
        ((12 + c.2).toNat + 1) * 1024 / 24 < loy ∨
        hiy < (12 + c.2).toNat * 1024 / 24 ∨
        step1Fill stream c.1 c.2 = false)) = true) :
    step1Covers stream x y = false := by
  unfold step1Covers
  generalize step1Cells = L at h ⊢
  induction L with
  | nil => rfl
  | cons c t ih =>
    rw [List.all_cons, Bool.and_eq_true] at h
    rw [List.any_cons, ih h.2, Bool.or_false]
    apply Bool.eq_false_iff.mpr
    intro hcov
    rw [Bool.and_eq_true] at hcov
    have h1 := of_decide_eq_true h.1
    rcases h1 with h' | h' | h' | h' | h'
    · simp only [coversCell, Bool.and_eq_true, decide_eq_true_eq] at hcov
      omega
    · simp only [coversCell, Bool.and_eq_true, decide_eq_true_eq] at hcov
      omega
    · simp only [coversCell, Bool.and_eq_true, decide_eq_true_eq] at hcov
      omega
    · simp only [coversCell, Bool.and_eq_true, decide_eq_true_eq] at hcov
      omega
    · rw [h'] at hcov
      exact absurd hcov.2 (by decide)

/-- The ink layer of `addrFull` is fully transparent on the 63x63 box
centered at pixel `(245, 863)`: no kept splatter rectangle and no filled
step-1 rectangle meets the box, and the box lies in the unmirrored left
half. -/
theorem inkAlpha_box_zero : ∀ u v : ℕ, 214 ≤ u → u ≤ 276 → 832 ≤ v → v ≤ 894 →
    inkAlpha addrFull u v = 0 := by
  intro u v h1 h2 h3 h4
  unfold inkAlpha splatterCells add_grid_splatter
  rw [seedS_eval, mtStream_S, show splatterCount addrFull = 177 from by decide,
    if_pos (show 1 < zeroCountInk addrFull by decide)]
  rw [splatter_miss (splatterLoopAux (mtP1S + (mtP2S <<< 19968)) (24 * 2) 177 0)
    u v 214 276 832 894 h1 h2 h3 h4 (by decide)]
  show mirrorPaste (step1Alpha addrFull) 1024 u v = 0
  unfold mirrorPaste
  rw [if_neg (show ¬(1024 / 2 ≤ u ∧ u < 1024 / 2 + 1024 / 2) from by omega)]
  unfold step1Alpha
  rw [seedF_eval, mtStream_F]
  rw [step1_miss mtP1F u v 214 276 832 894 h1 h2 h3 h4 (by decide)]
  rfl

/-- The splatter step of `addrFull` draws the kept cell `(36, 40)` — the
inclusive rectangle `[768, 789] x [853, 874]` — so the ink layer is opaque
at pixel `(778, 863)`. -/
theorem inkAlpha_splat_full : inkAlpha addrFull 778 863 = 255 := by
  unfold inkAlpha splatterCells add_grid_splatter
  rw [seedS_eval, mtStream_S, show splatterCount addrFull = 177 from by decide,
    if_pos (show 1 < zeroCountInk addrFull by decide)]
  decide

/-- C1 counterexample, at the output raster: for `addrFull` the splatter
step draws a rectangle covering pixel `(778, 863)` after the mirror step,
so the returned image is opaque black there, while the mirror pixel
`(245, 863)` sits in a fully transparent 63x63 ink neighborhood: the bleed
blur cannot saturate it, so white shows through and the two output pixels
differ — whatever the blur and compositing operators compute.  Neither
pixel lies in a border cell, so step 6 leaves both untouched. -/
theorem C1_counterexample :
    mirrorBreaks addrFull 778 863 ∧ (1024 - 1 - 778 : ℕ) = 245 := by
  refine ⟨?_, rfl⟩
  intro V B
  rw [show (1024 - 1 - 778 : ℕ) = 245 from rfl]
  have hA : finalPix V B addrFull 778 863 = (0, 0, 0) := by
    unfold finalPix combinedPix
    rw [show borderCellAt 778 863 = none from by decide]
    rw [inkAlpha_splat_full,
      V.src_opaque (V.op (255, 255, 255, 255) (bleedPix B addrFull 778 863))
        (0, 0, 0, 255) rfl]
    rfl
  have h0 : inkAlpha addrFull 245 863 = 0 :=
    inkAlpha_box_zero 245 863 (by norm_num) (by norm_num) (by norm_num) (by norm_num)
  have hba : B.op (inkAlpha addrFull) 245 863 < 255 :=
    B.op_local _ 245 863 (fun u v hu hv hb1 hb2 hb3 hb4 =>
      inkAlpha_box_zero u v (by omega) (by omega) (by omega) (by omega))
  obtain ⟨w, hw0, hwe⟩ := V.white_black _ hba
  have hB : finalPix V B addrFull 245 863 = ((w : ℤ), (w : ℤ), (w : ℤ)) := by
    unfold finalPix combinedPix bleedPix
    rw [show borderCellAt 245 863 = none from by decide]
    rw [B.op_zero, h0, hwe, V.src_clear (w, w, w, 255) (0, 0, 0, 0) rfl rfl]
  rw [hA, hB]
  intro hcontra
  rw [Prod.mk.injEq, Prod.mk.injEq] at hcontra
  omega

/-- C9 (amended): each additional shape appends one entry, clamped into
bounds.  A distance factor `d` is drawn uniformly from `[0.4, 1.2)` and a
unit direction `(c, s)` is drawn; when `i > 1` and the 60% test fires the
shape is offset from a previously placed reference shape by
`int(base_radius * d * c)` horizontally and `int(base_radius * d * s)`
vertically, with radius factor in `[0.5, 0.9)`
of the reference radius; otherwise it is offset from the center by
`int(main_radius * 2 * d * c)` and `int(main_radius * 2 * d * s)` —
twice the main radius, so up
to 2.4x the reference radius, not the claimed 0.4-1.2x — with radius
factor in `[0.3, 0.8)` of the main radius (shapes.py lines 36-66). -/
theorem C9_shape_step (size : ℕ) (rng : ShapeRng) (ps : List (ℝ × ℝ × ℝ)) (i : ℕ)
    (hu1 : 0 ≤ rng.u1 i ∧ rng.u1 i < 1) (hu3 : 0 ≤ rng.u3 i ∧ rng.u3 i < 1)
    (hu4 : 0 ≤ rng.u4 i ∧ rng.u4 i < 1)
    (hunit : (rng.unit i).1 ^ 2 + (rng.unit i).2 ^ 2 = 1)
    (hlen : i ≤ ps.length) :
    ∃ next : ℝ × ℝ × ℝ,
      shapeStep size rng ps i =
        ps ++ [(pyClamp next.2.2 (((size / 2 : ℕ) : ℝ) - next.2.2) next.1,
                pyClamp next.2.2 ((size : ℝ) - next.2.2) next.2.1, next.2.2)] ∧
      ∃ d : ℝ, 0.4 ≤ d ∧ d < 1.2 ∧ ∃ c s : ℝ, c ^ 2 + s ^ 2 = 1 ∧
        ((1 < i ∧ rng.u2 i < 0.6) →
          ∃ ref ∈ ps.take i, ∃ f : ℝ, 0.5 ≤ f ∧ f < 0.9 ∧
            next = (ref.1 + (pyInt (ref.2.2 * d * c) : ℝ),
                    ref.2.1 + (pyInt (ref.2.2 * d * s) : ℝ), ref.2.2 * f)) ∧
        (¬ (1 < i ∧ rng.u2 i < 0.6) →
          ∃ f : ℝ, 0.3 ≤ f ∧ f < 0.8 ∧
            next = (((size / 2 / 2 : ℕ) : ℝ) +
                      (pyInt (((size / 7 : ℕ) : ℝ) * 2 * d * c) : ℝ),
                    ((size / 2 : ℕ) : ℝ) +
                      (pyInt (((size / 7 : ℕ) : ℝ) * 2 * d * s) : ℝ),
                    ((size / 7 : ℕ) : ℝ) * f)) := by
  by_cases hbr : 1 < i ∧ rng.u2 i < 0.6
  · refine ⟨_, by simp only [shapeStep]; rw [if_pos hbr], 0.4 + (1.2 - 0.4) * rng.u1 i,
      by nlinarith [hu1.1], by nlinarith [hu1.2], (rng.unit i).1, (rng.unit i).2, hunit, ?_, ?_⟩
    · intro _
      refine ⟨(ps.take i).getD (rng.choice i % i) (0, 0, 0), ?_,
        0.5 + (0.9 - 0.5) * rng.u3 i, by nlinarith [hu3.1], by nlinarith [hu3.2], ?_⟩
      · have hi : 0 < i := by omega
        have hlt : rng.choice i % i < (ps.take i).length := by
          rw [List.length_take]
          have := Nat.mod_lt (rng.choice i) hi
          omega
        rw [List.getD_eq_getElem _ _ hlt]
        exact List.getElem_mem _
      · rfl
    · intro hn
      exact absurd hbr hn
  · refine ⟨_, by simp only [shapeStep]; rw [if_neg hbr], 0.4 + (1.2 - 0.4) * rng.u1 i,
      by nlinarith [hu1.1], by nlinarith [hu1.2], (rng.unit i).1, (rng.unit i).2, hunit, ?_, ?_⟩
    · intro hc
      exact absurd hc hbr
    · intro _
      refine ⟨0.3 + (0.8 - 0.3) * rng.u4 i, by nlinarith [hu4.1], by nlinarith [hu4.2], ?_⟩
      rfl

/-- Every shape step appends exactly one entry to the position list. -/
theorem shapeStep_eq_append (size : ℕ) (rng : ShapeRng) (ps : List (ℝ × ℝ × ℝ)) (i : ℕ) :
    ∃ q, shapeStep size rng ps i = ps ++ [q] := ⟨_, rfl⟩

/-- C9 counterexample: with angle pi/2 and distance draw 1/2 the first
additional shape at size 800 lands at `(200, 582, 34.2)`: its vertical
offset from the center is `582 - 400 = 182`, which exceeds `1.2` times the
reference (main) radius `114 = 800 // 7`, because the center branch scales
by `main_radius * 2`.  So the claimed distance of 0.4-1.2 reference radii
is violated. -/
theorem C9_counterexample :
    (shape_positions 800 4 rngC).getD 1 (0, 0, 0) = (200, 582, 171 / 5) ∧
    ((800 / 7 : ℕ) : ℝ) = 114 ∧ (1.2 * 114 : ℝ) < 582 - 400 := by
  refine ⟨?_, by norm_num, by norm_num⟩
  have hfold : shape_positions 800 4 rngC =
      shapeStep 800 rngC (shapeStep 800 rngC (shapeStep 800 rngC
        [(((800 / 2 / 2 : ℕ) : ℝ), ((800 / 2 : ℕ) : ℝ), ((800 / 7 : ℕ) : ℝ))] 0) 1) 2 := rfl
  have h1 : shapeStep 800 rngC
      [(((800 / 2 / 2 : ℕ) : ℝ), ((800 / 2 : ℕ) : ℝ), ((800 / 7 : ℕ) : ℝ))] 0 =
      [(((800 / 2 / 2 : ℕ) : ℝ), ((800 / 2 : ℕ) : ℝ), ((800 / 7 : ℕ) : ℝ)),
        (200, 582, 171 / 5)] := by
    have hun1 : (rngC.unit 0).1 = 0 := rfl
    have hun2 : (rngC.unit 0).2 = 1 := rfl
    have hu1 : rngC.u1 0 = 1 / 2 := rfl
    have hu4 : rngC.u4 0 = 0 := rfl
    have h114 : ((800 / 7 : ℕ) : ℝ) = 114 := by norm_num
    simp only [shapeStep]
    rw [if_neg (fun h => absurd h.1 (by norm_num))]
    rw [hun1, hun2, hu1, hu4, h114]
    have hx : pyInt ((114 : ℝ) * 2 * (0.4 + (1.2 - 0.4) * (1 / 2)) * 0) = 0 := by
      have h0 : ((114 : ℝ) * 2 * (0.4 + (1.2 - 0.4) * (1 / 2)) * 0) = 0 := by norm_num
      rw [h0, pyInt, if_pos le_rfl]
      exact Int.floor_zero
    have hy : pyInt ((114 : ℝ) * 2 * (0.4 + (1.2 - 0.4) * (1 / 2)) * 1) = 182 := by
      have h0 : ((114 : ℝ) * 2 * (0.4 + (1.2 - 0.4) * (1 / 2)) * 1) = 912 / 5 := by norm_num
      rw [h0, pyInt, if_pos (by norm_num)]
      rw [Int.floor_eq_iff]
      constructor <;> norm_num
    rw [hx, hy]
    have hr : (114 : ℝ) * (0.3 + (0.8 - 0.3) * 0) = 171 / 5 := by norm_num
    rw [hr]
    have hcx : pyClamp (171 / 5) (((800 / 2 : ℕ) : ℝ) - 171 / 5)
        (((800 / 2 / 2 : ℕ) : ℝ) + ((0 : ℤ) : ℝ)) = 200 := by
      rw [pyClamp]
      have : (((800 / 2 / 2 : ℕ) : ℝ) + ((0 : ℤ) : ℝ)) = 200 := by norm_num
      rw [this]
      rw [min_eq_right (by norm_num), max_eq_right (by norm_num)]
    have hcy : pyClamp (171 / 5) (((800 : ℕ) : ℝ) - 171 / 5)
        (((800 / 2 : ℕ) : ℝ) + ((182 : ℤ) : ℝ)) = 582 := by
      rw [pyClamp]
      have : (((800 / 2 : ℕ) : ℝ) + ((182 : ℤ) : ℝ)) = 582 := by norm_num
      rw [this]
      rw [min_eq_right (by norm_num), max_eq_right (by norm_num)]
    rw [hcx, hcy]
    rfl
  rw [hfold, h1]
  obtain ⟨q2, h2⟩ := shapeStep_eq_append 800 rngC
    [(((800 / 2 / 2 : ℕ) : ℝ), ((800 / 2 : ℕ) : ℝ), ((800 / 7 : ℕ) : ℝ)),
      (200, 582, 171 / 5)] 1
  rw [h2]
  obtain ⟨q3, h3⟩ := shapeStep_eq_append 800 rngC
    ([(((800 / 2 / 2 : ℕ) : ℝ), ((800 / 2 : ℕ) : ℝ), ((800 / 7 : ℕ) : ℝ)),
      (200, 582, 171 / 5)] ++ [q2]) 2
  rw [h3]
  rw [List.getD_append _ _ _ _ (by simp), List.getD_append _ _ _ _ (by simp)]
  rfl

/-- Witness for `C9_shape_step` at size 800 with the concrete stream
`rngC` on the singleton position list, iteration 0. -/
theorem C9_shape_step_witness :
    ((0 : ℝ) ≤ rngC.u1 0 ∧ rngC.u1 0 < 1) ∧ ((0 : ℝ) ≤ rngC.u3 0 ∧ rngC.u3 0 < 1) ∧
    ((0 : ℝ) ≤ rngC.u4 0 ∧ rngC.u4 0 < 1) ∧
    (rngC.unit 0).1 ^ 2 + (rngC.unit 0).2 ^ 2 = 1 ∧
    0 ≤ [((0 : ℝ), (0 : ℝ), (0 : ℝ))].length ∧
    (∃ next : ℝ × ℝ × ℝ,
      shapeStep 800 rngC [((0 : ℝ), (0 : ℝ), (0 : ℝ))] 0 =
        [((0 : ℝ), (0 : ℝ), (0 : ℝ))] ++
          [(pyClamp next.2.2 (((800 / 2 : ℕ) : ℝ) - next.2.2) next.1,
            pyClamp next.2.2 (((800 : ℕ) : ℝ) - next.2.2) next.2.1, next.2.2)] ∧
      ∃ d : ℝ, 0.4 ≤ d ∧ d < 1.2 ∧ ∃ c s : ℝ, c ^ 2 + s ^ 2 = 1 ∧
        ((1 < 0 ∧ rngC.u2 0 < 0.6) →
          ∃ ref ∈ [((0 : ℝ), (0 : ℝ), (0 : ℝ))].take 0, ∃ f : ℝ, 0.5 ≤ f ∧ f < 0.9 ∧
            next = (ref.1 + (pyInt (ref.2.2 * d * c) : ℝ),
                    ref.2.1 + (pyInt (ref.2.2 * d * s) : ℝ), ref.2.2 * f)) ∧
        (¬ (1 < 0 ∧ rngC.u2 0 < 0.6) →
          ∃ f : ℝ, 0.3 ≤ f ∧ f < 0.8 ∧
            next = (((800 / 2 / 2 : ℕ) : ℝ) +
                      (pyInt (((800 / 7 : ℕ) : ℝ) * 2 * d * c) : ℝ),
                    ((800 / 2 : ℕ) : ℝ) +
                      (pyInt (((800 / 7 : ℕ) : ℝ) * 2 * d * s) : ℝ),
                    ((800 / 7 : ℕ) : ℝ) * f))) :=
  ⟨⟨by norm_num [rngC], by norm_num [rngC]⟩, ⟨by norm_num [rngC], by norm_num [rngC]⟩,
   ⟨by norm_num [rngC], by norm_num [rngC]⟩, by norm_num [rngC], by simp,
   C9_shape_step 800 rngC [((0 : ℝ), (0 : ℝ), (0 : ℝ))] 0 ⟨by norm_num [rngC], by norm_num [rngC]⟩
     ⟨by norm_num [rngC], by norm_num [rngC]⟩ ⟨by norm_num [rngC], by norm_num [rngC]⟩
     (by norm_num [rngC]) (by simp)⟩

end Inkblots

